import Mathlib

/-!
Verification of the polar-core knowledge base (kb.rs) and load protocol
(polar.rs) of the oso policy engine.

The Rust sources under src/polar-core/src are shallowly embedded: structs
become Lean structures, enums become inductives, `&mut self` methods become
state-passing functions, and `PolarResult` together with the possibility of
a Rust panic (`unreachable!`) becomes the `PRes` type below.  Code of the
repository that is not under src/ (terms.rs, rules.rs, sources.rs,
counter.rs, resource_block.rs, the parser, the rewriter, the lint passes
and the pretty-printers) is either modelled from the specification (data
model pieces, marked "Modelled from the spec") or abstracted into the
`Collab` record of collaborator functions over which the theorems quantify.
-/

namespace Oso

/-- Interned identifier string (terms.rs `Symbol`; modelled from the spec). -/
structure Symbol where
  name : String
deriving DecidableEq, Repr

/-- Numbers; the float payload is abstracted to its bit pattern, only
structural equality is used on it (modelled from the spec). -/
inductive Numeric where
  | integer (i : Int)
  | float (bits : Int)
deriving DecidableEq, Repr

/-- Operators appearing in expressions; only And is inspected by the
embedded code (the rule-type body check). Modelled from the spec. -/
inductive Operator where
  | and
  | or
  | dot
  | unify
  | isa
deriving DecidableEq, Repr

mutual

/-- Term variants (terms.rs `Value`; modelled from the spec, section 3). -/
inductive Value where
  | number (n : Numeric)
  | str (s : String)
  | boolean (b : Bool)
  | list (l : List Term)
  | dictionary (fields : List (Symbol × Term))
  | variable (s : Symbol)
  | restVariable (s : Symbol)
  | call (name : Symbol) (args : List Term)
  | expression (op : Operator) (args : List Term)
  | pattern (p : Pattern)
  | externalInstance (e : ExternalInstance)

/-- Specializer patterns (terms.rs `Pattern`; modelled from the spec). The
source constructor `Instance` is a Lean keyword, hence `instancePat`. -/
inductive Pattern where
  | dictionary (fields : List (Symbol × Term))
  | instancePat (i : InstanceLiteral)

/-- A class tag with constraining fields (terms.rs `InstanceLiteral`). -/
inductive InstanceLiteral where
  | mk (tag : Symbol) (fields : List (Symbol × Term))

/-- A handle into the host (terms.rs `ExternalInstance`). -/
inductive ExternalInstance where
  | mk (instance_id : Nat) (constructor : Option Term) (repr0 : Option String)

/-- A value together with its optional source id (terms.rs `Term`; the
spec: every term optionally carries a source ID for diagnostics). -/
inductive Term where
  | mk (value : Value) (sid : Option Nat)

end

/-- The value carried by a term. -/
def Term.value : Term → Value
  | .mk v _ => v

/-- The optional source id carried by a term (terms.rs `get_source_id`). -/
def Term.get_source_id : Term → Option Nat
  | .mk _ s => s

/-- The tag of an instance literal. -/
def InstanceLiteral.tag : InstanceLiteral → Symbol
  | .mk t _ => t

/-- The fields of an instance literal. -/
def InstanceLiteral.fields : InstanceLiteral → List (Symbol × Term)
  | .mk _ f => f

/-- The instance id of an external instance. -/
def ExternalInstance.instance_id : ExternalInstance → Nat
  | .mk i _ _ => i

mutual

/-- Structural equality on values (Rust `PartialEq` on `Value`; modelled
from the spec: source ids are diagnostic metadata and play no role). -/
def valueEq : Value → Value → Bool
  | .number a, .number b => a == b
  | .str a, .str b => a == b
  | .boolean a, .boolean b => a == b
  | .list a, .list b => termListEq a b
  | .dictionary a, .dictionary b => fieldListEq a b
  | .variable a, .variable b => a == b
  | .restVariable a, .restVariable b => a == b
  | .call n a, .call n' b => n == n' && termListEq a b
  | .expression o a, .expression o' b => o == o' && termListEq a b
  | .pattern a, .pattern b => patternEq a b
  | .externalInstance a, .externalInstance b => externalEq a b
  | _, _ => false
termination_by structural v => v

/-- Structural equality on patterns. -/
def patternEq : Pattern → Pattern → Bool
  | .dictionary a, .dictionary b => fieldListEq a b
  | .instancePat a, .instancePat b => instanceLiteralEq a b
  | _, _ => false
termination_by structural p => p

/-- Structural equality on instance literals. -/
def instanceLiteralEq : InstanceLiteral → InstanceLiteral → Bool
  | .mk t f, .mk t' f' => t == t' && fieldListEq f f'
termination_by structural i => i

/-- Structural equality on external instances. -/
def externalEq : ExternalInstance → ExternalInstance → Bool
  | .mk i c r, .mk i' c' r' => i == i' && optTermEq c c' && r == r'
termination_by structural e => e

/-- Equality on optional terms. -/
def optTermEq : Option Term → Option Term → Bool
  | none, none => true
  | some a, some b => termEq a b
  | _, _ => false
termination_by structural o => o

/-- Equality on terms: by value, ignoring the source id (Rust `PartialEq`
on `Term`; modelled from the spec). -/
def termEq : Term → Term → Bool
  | .mk v _, .mk v' _ => valueEq v v'
termination_by structural t => t

/-- Pointwise equality of term lists. -/
def termListEq : List Term → List Term → Bool
  | [], [] => true
  | a :: as', b :: bs => termEq a b && termListEq as' bs
  | _, _ => false
termination_by structural l => l

/-- Pointwise equality of field lists (dictionaries). -/
def fieldListEq : List (Symbol × Term) → List (Symbol × Term) → Bool
  | [], [] => true
  | (k, v) :: as', (k', v') :: bs => k == k' && termEq v v' && fieldListEq as' bs
  | _, _ => false
termination_by structural l => l

end

/-- Membership of a term in a term list, Rust `Vec::contains` under the
term equality above. -/
def containsTerm (l : List Term) (t : Term) : Bool :=
  l.any (fun x => termEq x t)

/-- Association-list model of a map: lookup (HashMap / BTreeMap `get`). -/
def mapGet {κ ν : Type} [DecidableEq κ] (m : List (κ × ν)) (k : κ) : Option ν :=
  match m with
  | [] => none
  | (k', v) :: rest => if k' = k then some v else mapGet rest k

/-- Association-list model of a map: insert-or-replace (HashMap `insert`). -/
def mapInsert {κ ν : Type} [DecidableEq κ] (m : List (κ × ν)) (k : κ) (v : ν) :
    List (κ × ν) :=
  match m with
  | [] => [(k, v)]
  | (k', v') :: rest => if k' = k then (k, v) :: rest else (k', v') :: mapInsert rest k v

/-- Lookup of a dictionary field (BTreeMap `get` on `Dictionary.fields`). -/
def dictGet (fields : List (Symbol × Term)) (k : Symbol) : Option Term :=
  mapGet fields k

/-- kb.rs `param_fields_match`: every rule-type field is present among the
rule fields with a term-equal value. -/
def param_fields_match (type_fields rule_fields : List (Symbol × Term)) : Bool :=
  type_fields.all (fun kv =>
    match dictGet rule_fields kv.1 with
    | some rule_value => termEq rule_value kv.2
    | none => false)

/-- Modelled from the spec: terms.rs (not under src/) provides
has_rest_var; rule-type lists must not contain a rest variable. -/
def has_rest_var (l : List Term) : Bool :=
  l.any (fun t =>
    match t.value with
    | .restVariable _ => true
    | _ => false)

/-- A rule parameter: a term plus an optional specializer (rules.rs
`Parameter`; modelled from the spec). -/
structure Parameter where
  parameter : Term
  specializer : Option Term

/-- A rule or rule type (rules.rs `Rule`; modelled from the spec). The
`required` flag is meaningful for rule types only. -/
structure Rule where
  name : Symbol
  params : List Parameter
  body : Term
  required : Bool := false

/-- All rules sharing a name, in insertion order (rules.rs `GenericRule`;
the source keys rules by a stable increasing id, so a list in insertion
order has the same iteration behaviour; modelled from the spec). -/
structure GenericRule where
  name : Symbol
  rules : List Rule

/-- A source file (sources.rs `Source`). -/
structure Source where
  src : String
  filename : Option String
deriving DecidableEq, Repr

/-- resource_block.rs `ShorthandRule` (modelled from the spec): head string
and a body of implier plus optional traversed relation. -/
structure ShorthandRule where
  head : String
  body : String × Option String

/-- resource_block.rs `ResourceBlocks` (modelled from the spec, section 3):
declared actor and resource terms, relation triples
(related class, relation name, resource), shorthand rules per resource,
and whether any roles were declared. -/
structure ResourceBlocks where
  actors : List Term
  resources : List Term
  relations : List (Symbol × String × Symbol)
  shorthand_rules : List (Symbol × List ShorthandRule)
  roles : Bool

/-- The empty resource-block store. -/
def ResourceBlocks.empty : ResourceBlocks :=
  { actors := [], resources := [], relations := [], shorthand_rules := [], roles := false }

/-- resource_block.rs `clear` (modelled from the spec: clearing empties the
store). -/
def ResourceBlocks.clear (_rb : ResourceBlocks) : ResourceBlocks :=
  ResourceBlocks.empty

/-- kb.rs usage `resource_blocks.has_roles()` (modelled from the spec). -/
def ResourceBlocks.has_roles (rb : ResourceBlocks) : Bool :=
  rb.roles

/-- kb.rs usage `resource_blocks.relation_tuples()` (modelled from the
spec): the declared relation triples. -/
def ResourceBlocks.relation_tuples (rb : ResourceBlocks) :
    List (Symbol × String × Symbol) :=
  rb.relations

/-- The union names reserved by resource_block.rs. -/
def ACTOR_UNION_NAME : String := "Actor"

/-- The union names reserved by resource_block.rs. -/
def RESOURCE_UNION_NAME : String := "Resource"

/-- The tag of a term, for the union test (modelled from the spec: a term
is a union iff its tag is exactly Actor or Resource). -/
def Term.tag_symbol : Term → Option Symbol := fun t =>
  match t.value with
  | .variable s => some s
  | .restVariable s => some s
  | .pattern (.instancePat i) => some i.tag
  | _ => none

/-- terms.rs `is_actor_union` (modelled from the spec). -/
def Term.is_actor_union (t : Term) : Bool :=
  t.tag_symbol == some (Symbol.mk ACTOR_UNION_NAME)

/-- terms.rs `is_resource_union` (modelled from the spec). -/
def Term.is_resource_union (t : Term) : Bool :=
  t.tag_symbol == some (Symbol.mk RESOURCE_UNION_NAME)

/-- Error kinds (error.rs, flattened across ErrorKind / ValidationError /
RuntimeError / OperationalError; modelled from the spec, section 7). -/
inductive ErrorKind where
  | validationInvalidRule (rule : String) (msg : String)
  | validationInvalidRuleType (rule_type : String) (msg : String)
  | validationMissingRequiredRule (rule : Rule)
  | validationUnregisteredClass (term : Term)
  | validationResourceBlock (msg : String) (term : Term)
  | validationSingletonVariable (msg : String) (term : Term)
  | validationUndefinedRuleCall (msg : String)
  | runtimeFileLoading (msg : String)
  | runtimeTypeError (msg : String)
  | operationalInvalidState (msg : String)

/-- error.rs `PolarError`: a kind plus optional source context (the source
and the context term attached by `set_context`). -/
structure PolarError where
  kind : ErrorKind
  ctxSource : Option Source := none
  ctxTerm : Option Term := none

/-- diagnostic.rs `Diagnostic` (modelled from the spec). -/
inductive Diagnostic where
  | error (e : PolarError)
  | warning (w : PolarError)

/-- diagnostic.rs `Diagnostic::is_error` (modelled from the spec). -/
def Diagnostic.isError : Diagnostic → Bool
  | .error _ => true
  | .warning _ => false

/-- The outcome of running a fallible Rust function: `Ok`, `Err`, or an
aborted run (`unreachable!` / `expect`). The third constructor keeps
panics distinct from returned errors. -/
inductive PRes (α : Type) where
  | ok (a : α)
  | err (e : PolarError)
  | panicked (msg : String)

instance : Monad PRes where
  pure := PRes.ok
  bind := fun m f =>
    match m with
    | .ok a => f a
    | .err e => .err e
    | .panicked msg => .panicked msg

/-- Whether a `PRes` is an `Err` (and not `Ok`, nor a panic). -/
def PRes.isErr {α : Type} : PRes α → Bool
  | .err _ => true
  | _ => false

/-- kb.rs `RuleParamMatch`. -/
inductive RuleParamMatch where
  | isTrue
  | isFalse (msg : String)

/-- terms.rs `as_symbol` (modelled from the spec: variables carry symbols;
other variants are a type error). -/
def Value.as_symbol : Value → PRes Symbol
  | .variable s => .ok s
  | .restVariable s => .ok s
  | _ => .err { kind := .runtimeTypeError "Expected symbol" }

/-- kb.rs `KnowledgeBase`.  HashMaps become association lists (insertion
order; HashMap iteration order is arbitrary in Rust, the list order is one
admissible order), the two `Counter`s become their Nat state. -/
structure KnowledgeBase where
  constants : List (Symbol × Term)
  mro : List (Symbol × List Nat)
  loaded_files : List (String × Nat)
  loaded_content : List (String × String)
  rules : List (Symbol × GenericRule)
  rule_types : List (Symbol × List Rule)
  sources : List (Nat × Source)
  gensym_counter : Nat
  id_counter : Nat
  inline_queries : List Term
  resource_blocks : ResourceBlocks

/-- kb.rs `KnowledgeBase::new` (Default). -/
def KnowledgeBase.new : KnowledgeBase :=
  { constants := [], mro := [], loaded_files := [], loaded_content := []
    rules := [], rule_types := [], sources := [], gensym_counter := 0
    id_counter := 0, inline_queries := [], resource_blocks := ResourceBlocks.empty }

/-- counter.rs `Counter::next` (not under src/; modelled from the spec and
the kb.rs doc comment: sequential ids, wrapping at 52 bits). -/
def counter_next (c : Nat) : Nat × Nat :=
  (c, (c + 1) % 2 ^ 52)

/-- kb.rs `new_id`: draw the next id from the id counter. -/
def KnowledgeBase.new_id (kb : KnowledgeBase) : Nat × KnowledgeBase :=
  let p := counter_next kb.id_counter
  (p.1, { kb with id_counter := p.2 })

/-- The message of kb.rs `register_constant`'s rejection. -/
def register_constant_rejection_msg (name : Symbol) : String :=
  let n := name.name
  s!"Invalid attempt to register '{n}'. '{n}' is a built-in specializer."

/-- kb.rs `register_constant`: reject the union names, otherwise insert. -/
def register_constant (kb : KnowledgeBase) (name : Symbol) (value : Term) :
    PRes Unit × KnowledgeBase :=
  if name.name = ACTOR_UNION_NAME ∨ name.name = RESOURCE_UNION_NAME then
    (.err { kind := .runtimeTypeError (register_constant_rejection_msg name) }, kb)
  else
    (.ok (), { kb with constants := mapInsert kb.constants name value })

/-- kb.rs `is_constant`. -/
def is_constant (kb : KnowledgeBase) (name : Symbol) : Bool :=
  (mapGet kb.constants name).isSome

/-- kb.rs `get_registered_class`: the constant registered under the class
term's symbol, or an UnregisteredClass error. -/
def get_registered_class (kb : KnowledgeBase) (cls : Term) : PRes Term :=
  match cls.value.as_symbol with
  | .ok s =>
    match mapGet kb.constants s with
    | some t => .ok t
    | none => .err { kind := .validationUnregisteredClass cls }
  | .err e => .err e
  | .panicked msg => .panicked msg

/-- The message of kb.rs `add_mro`'s registration guard. -/
def add_mro_unregistered_msg (name : Symbol) : String :=
  let n := name.name
  s!"Cannot add MRO for unregistered class {n}"

/-- kb.rs `add_mro`: require the class to be registered, then record. -/
def add_mro (kb : KnowledgeBase) (name : Symbol) (mro : List Nat) :
    PRes Unit × KnowledgeBase :=
  if !(is_constant kb name) then
    (.err { kind := .operationalInvalidState (add_mro_unregistered_msg name) }, kb)
  else
    (.ok (), { kb with mro := mapInsert kb.mro name mro })

/-- The first rejection message of kb.rs `check_file`. -/
def file_already_loaded_msg (filename : String) : String :=
  s!"File {filename} has already been loaded."

/-- The second rejection message of kb.rs `check_file`. -/
def file_different_contents_msg (filename : String) : String :=
  s!"A file with the name {filename}, but different contents has already been loaded."

/-- The third rejection message of kb.rs `check_file`. -/
def file_same_contents_msg (filename other_file : String) : String :=
  s!"A file with the same contents as {filename} named {other_file} has already been loaded."

/-- kb.rs `check_file`: the three duplicate-source rejections. -/
def check_file (kb : KnowledgeBase) (src filename : String) : PRes Unit :=
  match mapGet kb.loaded_content src, (mapGet kb.loaded_files filename).isSome with
  | some other_file, true =>
    if other_file = filename then
      .err { kind := .runtimeFileLoading (file_already_loaded_msg filename) }
    else
      .err { kind := .runtimeFileLoading (file_different_contents_msg filename) }
  | none, true =>
    .err { kind := .runtimeFileLoading (file_different_contents_msg filename) }
  | some other_file, false =>
    .err { kind := .runtimeFileLoading (file_same_contents_msg filename other_file) }
  | none, false => .ok ()

/-- sources.rs `Sources::add_source` (modelled from the spec: record the
source under its id). -/
def sourcesAdd (sources : List (Nat × Source)) (source : Source) (sid : Nat) :
    List (Nat × Source) :=
  mapInsert sources sid source

/-- kb.rs `add_source`: allocate an id, run the duplicate check when a
filename is present, then record the source in the three maps. -/
def add_source (kb : KnowledgeBase) (source : Source) : PRes Nat × KnowledgeBase :=
  let p := kb.new_id
  let src_id := p.1
  let kb := p.2
  match source.filename with
  | some filename =>
    match check_file kb source.src filename with
    | .ok _ =>
      let kb := { kb with
        loaded_content := mapInsert kb.loaded_content source.src filename
        loaded_files := mapInsert kb.loaded_files filename src_id }
      (.ok src_id, { kb with sources := sourcesAdd kb.sources source src_id })
    | .err e => (.err e, kb)
    | .panicked msg => (.panicked msg, kb)
  | none =>
    (.ok src_id, { kb with sources := sourcesAdd kb.sources source src_id })

/-- kb.rs `clear_rules`: empty rules, rule types, sources, inline queries,
loaded-file maps and resource blocks; constants and MROs survive. -/
def clear_rules (kb : KnowledgeBase) : KnowledgeBase :=
  { kb with
    rules := []
    rule_types := []
    sources := []
    inline_queries := []
    loaded_content := []
    loaded_files := []
    resource_blocks := kb.resource_blocks.clear }

/-- kb.rs `has_rules`. -/
def has_rules (kb : KnowledgeBase) : Bool :=
  !kb.rules.isEmpty

/-- kb.rs `add_rule`: group under the rule's name (rules.rs
`GenericRule::add_rule` appends; modelled from the spec). -/
def add_rule (kb : KnowledgeBase) (rule : Rule) : KnowledgeBase :=
  match mapGet kb.rules rule.name with
  | some gr =>
    { kb with rules := mapInsert kb.rules rule.name { gr with rules := gr.rules ++ [rule] } }
  | none =>
    { kb with rules := mapInsert kb.rules rule.name { name := rule.name, rules := [rule] } }

/-- kb.rs `add_rule_type` (rules.rs `RuleTypes::add` appends under the
name; modelled from the spec). -/
def add_rule_type (kb : KnowledgeBase) (rule_type : Rule) : KnowledgeBase :=
  match mapGet kb.rule_types rule_type.name with
  | some l =>
    { kb with rule_types := mapInsert kb.rule_types rule_type.name (l ++ [rule_type]) }
  | none =>
    { kb with rule_types := mapInsert kb.rule_types rule_type.name [rule_type] }

/-- rules.rs `RuleTypes::required_rule_types` (modelled from the spec):
all declared shapes marked required. -/
def required_rule_types (kb : KnowledgeBase) : List Rule :=
  kb.rule_types.flatMap (fun p => p.2.filter (fun r => r.required))

/-- kb.rs `is_union`. -/
def is_union (_kb : KnowledgeBase) (maybe_union : Term) : Bool :=
  maybe_union.is_actor_union || maybe_union.is_resource_union

/-- kb.rs `get_union_members`; the fallthrough is `unreachable!` in the
source. -/
def get_union_members (kb : KnowledgeBase) (union : Term) : PRes (List Term) :=
  if union.is_actor_union then .ok kb.resource_blocks.actors
  else if union.is_resource_union then .ok kb.resource_blocks.resources
  else .panicked "get_union_members called on a non-union term"

/-- sources.rs `Sources::get_source` (modelled from the spec). -/
def get_source (kb : KnowledgeBase) (sid : Nat) : Option Source :=
  mapGet kb.sources sid

mutual

/-- kb.rs `set_error_context`'s `GetSource` visitor: the first term, in
pre-order, whose source id resolves in the source registry. -/
def find_source_term (kb : KnowledgeBase) : Term → Option (Source × Term)
  | .mk v sid =>
    match sid.bind (get_source kb) with
    | some s => some (s, Term.mk v sid)
    | none => find_source_value kb v
termination_by structural t => t

/-- Pre-order search through a value's subterms. -/
def find_source_value (kb : KnowledgeBase) : Value → Option (Source × Term)
  | .number _ => none
  | .str _ => none
  | .boolean _ => none
  | .list l => find_source_list kb l
  | .dictionary f => find_source_fields kb f
  | .variable _ => none
  | .restVariable _ => none
  | .call _ args => find_source_list kb args
  | .expression _ args => find_source_list kb args
  | .pattern p => find_source_pattern kb p
  | .externalInstance e => find_source_external kb e
termination_by structural v => v

/-- Pre-order search through a pattern's subterms. -/
def find_source_pattern (kb : KnowledgeBase) : Pattern → Option (Source × Term)
  | .dictionary f => find_source_fields kb f
  | .instancePat (.mk _ f) => find_source_fields kb f
termination_by structural p => p

/-- Pre-order search through an external instance's subterms. -/
def find_source_external (kb : KnowledgeBase) : ExternalInstance → Option (Source × Term)
  | .mk _ none _ => none
  | .mk _ (some t) _ => find_source_term kb t
termination_by structural e => e

/-- Pre-order search through a term list. -/
def find_source_list (kb : KnowledgeBase) : List Term → Option (Source × Term)
  | [] => none
  | t :: rest =>
    match find_source_term kb t with
    | some r => some r
    | none => find_source_list kb rest
termination_by structural l => l

/-- Pre-order search through a field list. -/
def find_source_fields (kb : KnowledgeBase) : List (Symbol × Term) → Option (Source × Term)
  | [] => none
  | (_, t) :: rest =>
    match find_source_term kb t with
    | some r => some r
    | none => find_source_fields kb rest
termination_by structural l => l

end

/-- kb.rs `set_error_context`: attach the first resolvable source position
found in `term` to the error. -/
def set_error_context (kb : KnowledgeBase) (term : Term) (e : PolarError) : PolarError :=
  match find_source_term kb term with
  | some (s, t) => { e with ctxSource := some s, ctxTerm := some t }
  | none => { e with ctxSource := none, ctxTerm := none }

/-- One parsed line of a policy source (parser.rs `Line`; modelled from the
spec, section 4.6).  The resource-block payload is abstract: its shape is
owned by the parser and resource_block.rs, neither of which is under src/. -/
inductive Line where
  | rule (r : Rule)
  | query (t : Term)
  | ruleType (r : Rule)
  | resourceBlock (data : Nat)

/-- The collaborator functions of the embedded code that live outside src/:
the pretty-printers (formatting.rs), the parser, the rewriter (which only
consumes the gensym counter), the lint passes (validations.rs) and
resource-block expansion (resource_block.rs).  Theorems quantify over this
record. -/
structure Collab where
  fmtRule : Rule → String
  fmtValue : Value → String
  fmtInstance : InstanceLiteral → String
  fmtFields : List (Symbol × Term) → String
  fmtPattern : Pattern → String
  fmtTermList : List Term → String
  fmtDict : List (Symbol × Term) → String
  fmtParam : Parameter → String
  parseLines : Nat → String → Except PolarError (List Line)
  rewriteRule : Rule → Nat → Rule × Nat
  checkSingletons : KnowledgeBase → Rule → List Diagnostic
  checkAmbiguousPrecedence : KnowledgeBase → Rule → List Diagnostic
  ingestResourceBlock : Nat → ResourceBlocks → ResourceBlocks × List PolarError
  shorthandAsRule : Symbol → ShorthandRule → ResourceBlocks → Except PolarError Rule
  checkUndefinedRuleCalls : KnowledgeBase → List Diagnostic
  checkNoAllowRule : KnowledgeBase → Option Diagnostic
  checkResourceBlocksMissingHasPermission : KnowledgeBase → Option Diagnostic

/-- The InvalidState message of the MRO lookup in kb.rs
`check_rule_instance_is_subclass_of_rule_type_instance`. -/
def mro_missing_msg (tag : Symbol) : String :=
  let ct := tag.name
  s!"All registered classes must have a registered MRO. Class {ct} does not have a registered MRO."

/-- kb.rs `check_rule_instance_is_subclass_of_rule_type_instance`: resolve
the rule-type tag's registered external instance id and test membership in
the rule tag's MRO; the non-external-instance case is `unreachable!` in
the source. -/
def check_rule_instance_is_subclass_of_rule_type_instance (c : Collab)
    (kb : KnowledgeBase) (rule_instance rule_type_instance : InstanceLiteral)
    (index : Nat) : PRes RuleParamMatch :=
  match get_registered_class kb (Term.mk (.variable rule_type_instance.tag) none) with
  | .err e => .err e
  | .panicked msg => .panicked msg
  | .ok term =>
    match term.value with
    | .externalInstance e =>
      let instance_id := e.instance_id
      match mapGet kb.mro rule_instance.tag with
      | some rule_mro =>
        if !(rule_mro.contains instance_id) then
          let ct := rule_instance.tag.name
          let pt := rule_type_instance.tag.name
          .ok (.isFalse
            s!"Rule specializer {ct} on parameter {index} must match rule type specializer {pt}")
        else if !(param_fields_match rule_type_instance.fields rule_instance.fields) then
          let ri := c.fmtInstance rule_instance
          let ti := c.fmtInstance rule_type_instance
          .ok (.isFalse
            s!"Rule specializer {ri} on parameter {index} did not match rule type specializer {ti} because the specializer fields did not match.")
        else .ok .isTrue
      | none =>
        .err { kind := .operationalInvalidState (mro_missing_msg rule_instance.tag) }
    | _ => .panicked "Unregistered specializer classes should be caught before this point."

/-- The member loop of kb.rs `check_pattern_param`'s union branch: try
every union member as a rule-type instance, propagating errors, and report
whether any subclass check succeeded. -/
def union_member_subclass_loop (c : Collab) (kb : KnowledgeBase)
    (rule_instance : InstanceLiteral) (type_fields : List (Symbol × Term))
    (index : Nat) : List Term → Bool → PRes Bool
  | [], success => .ok success
  | member :: rest, success => do
    let s ← member.value.as_symbol
    let r ← check_rule_instance_is_subclass_of_rule_type_instance c kb rule_instance
      (InstanceLiteral.mk s type_fields) index
    match r with
    | .isTrue => union_member_subclass_loop c kb rule_instance type_fields index rest true
    | .isFalse _ => union_member_subclass_loop c kb rule_instance type_fields index rest success

/-- The fields-did-not-match failure shared by the instance branches of
kb.rs `check_pattern_param`. -/
def pattern_fields_mismatch (c : Collab) (rule_instance rule_type_instance : InstanceLiteral)
    (index : Nat) : RuleParamMatch :=
  let ri := c.fmtInstance rule_instance
  let ti := c.fmtInstance rule_type_instance
  .isFalse
    s!"Rule specializer {ri} on parameter {index} did not match rule type specializer {ti} because the specializer fields did not match."

/-- kb.rs `check_pattern_param`: pattern specializer against pattern
specializer. -/
def check_pattern_param (c : Collab) (kb : KnowledgeBase) (index : Nat)
    (rule_pattern rule_type_pattern : Pattern) : PRes RuleParamMatch :=
  match rule_type_pattern, rule_pattern with
  | .instancePat rule_type_instance, .instancePat rule_instance =>
    if rule_type_instance.tag = rule_instance.tag then
      if param_fields_match rule_type_instance.fields rule_instance.fields then
        .ok .isTrue
      else
        .ok (pattern_fields_mismatch c rule_instance rule_type_instance index)
    else if is_union kb (Term.mk (.variable rule_type_instance.tag) none) then
      if is_union kb (Term.mk (.variable rule_instance.tag) none) then
        -- Two further union branches as in the source (the equal-tag branch
        -- is dead here, the tags differ).
        if rule_instance.tag = rule_type_instance.tag then
          if param_fields_match rule_type_instance.fields rule_instance.fields then
            .ok .isTrue
          else
            .ok (pattern_fields_mismatch c rule_instance rule_type_instance index)
        else
          let ct := rule_instance.tag.name
          let pt := rule_type_instance.tag.name
          .ok (.isFalse
            s!"Rule specializer {ct} on parameter {index} does not match rule type specializer {pt}")
      else do
        let members ← get_union_members kb (Term.mk (.variable rule_type_instance.tag) none)
        if !(containsTerm members (Term.mk (.variable rule_instance.tag) none)) then do
          let success ← union_member_subclass_loop c kb rule_instance
            rule_type_instance.fields index members false
          if !success then
            let ct := rule_instance.tag.name
            let pt := rule_type_instance.tag.name
            let base := s!"Rule specializer {ct} on parameter {index} must be a member of rule type specializer {pt}"
            let hint :=
              if rule_type_instance.tag.name = ACTOR_UNION_NAME then
                s!"\n\n\tPerhaps you meant to add an actor block to the top of your policy, like this:\n\n\t  actor {ct} \x7b\x7d"
              else if rule_type_instance.tag.name = RESOURCE_UNION_NAME then
                s!"\n\n\tPerhaps you meant to add a resource block to your policy, like this:\n\n\t  resource {ct} \x7b .. \x7d"
              else ""
            .ok (.isFalse (base ++ hint))
          else if !(param_fields_match rule_type_instance.fields rule_instance.fields) then
            .ok (pattern_fields_mismatch c rule_instance rule_type_instance index)
          else .ok .isTrue
        else if !(param_fields_match rule_type_instance.fields rule_instance.fields) then
          .ok (pattern_fields_mismatch c rule_instance rule_type_instance index)
        else .ok .isTrue
    else
      check_rule_instance_is_subclass_of_rule_type_instance c kb rule_instance
        rule_type_instance index
  | .dictionary rule_type_fields, .dictionary rule_fields
  | .dictionary rule_type_fields, .instancePat (.mk _ rule_fields) =>
    if param_fields_match rule_type_fields rule_fields then .ok .isTrue
    else
      let rf := c.fmtFields rule_fields
      let tf := c.fmtFields rule_type_fields
      .ok (.isFalse
        s!"Specializer mismatch on parameter {index}. Rule specializer fields {rf} do not match rule type specializer fields {tf}.")
  | .instancePat (.mk tag rule_type_fields), .dictionary rule_fields =>
    if tag = Symbol.mk "Dictionary" then
      if param_fields_match rule_type_fields rule_fields then .ok .isTrue
      else
        let rf := c.fmtFields rule_fields
        let tf := c.fmtFields rule_type_fields
        .ok (.isFalse
          s!"Specializer mismatch on parameter {index}. Rule specializer fields {rf} do not match rule type specializer fields {tf}.")
    else
      -- The source's catch-all arm, reached through the failed match guard.
      let tp := c.fmtPattern rule_type_pattern
      let rp := c.fmtPattern rule_pattern
      .ok (.isFalse
        s!"Mismatch on parameter {index}. Rule parameter {tp} does not match rule type parameter {rp}.")

/-- kb.rs `check_value_param`: value specializer against value
specializer. -/
def check_value_param (c : Collab) (_kb : KnowledgeBase) (index : Nat)
    (rule_value rule_type_value : Value) : PRes RuleParamMatch :=
  match rule_type_value, rule_value with
  | .list rule_type_list, .list rule_list =>
    if has_rest_var rule_type_list then
      .err { kind := .runtimeTypeError "Rule types cannot contain *rest variables." }
    else if rule_type_list.all (fun t => containsTerm rule_list t) then .ok .isTrue
    else
      let tl := c.fmtTermList rule_type_list
      let rl := c.fmtTermList rule_list
      .ok (.isFalse
        s!"Invalid parameter {index}. Rule type expected list {tl}, got list {rl}.")
  | .dictionary rule_type_fields, .dictionary rule_fields =>
    if param_fields_match rule_type_fields rule_fields then .ok .isTrue
    else
      let tf := c.fmtFields rule_type_fields
      let rf := c.fmtFields rule_fields
      .ok (.isFalse
        s!"Invalid parameter {index}. Rule type expected Dictionary with fields {tf}, got Dictionary with fields {rf}")
  | _, _ =>
    if valueEq rule_type_value rule_value then .ok .isTrue
    else
      let rv := c.fmtValue rule_value
      let tv := c.fmtValue rule_type_value
      .ok (.isFalse s!"Invalid parameter {index}. Rule value {rv} != rule type value {tv}")

/-- The value-to-synthetic-instance promotion inside kb.rs `check_param`:
a rule-side value against a rule-type pattern specializer.  The
non-promotable variants are `unreachable!` in the source. -/
def check_promoted_value (c : Collab) (kb : KnowledgeBase) (index : Nat)
    (rule_type_spec : Pattern) (rule_value : Value) : PRes RuleParamMatch :=
  match rule_type_spec with
  | .instancePat _ =>
    match rule_value with
    | .str _ =>
      check_pattern_param c kb index (.instancePat (.mk (Symbol.mk "String") [])) rule_type_spec
    | .number (.integer _) =>
      check_pattern_param c kb index (.instancePat (.mk (Symbol.mk "Integer") [])) rule_type_spec
    | .number (.float _) =>
      check_pattern_param c kb index (.instancePat (.mk (Symbol.mk "Float") [])) rule_type_spec
    | .boolean _ =>
      check_pattern_param c kb index (.instancePat (.mk (Symbol.mk "Boolean") [])) rule_type_spec
    | .list _ =>
      check_pattern_param c kb index (.instancePat (.mk (Symbol.mk "List") [])) rule_type_spec
    | .dictionary rule_fields =>
      check_pattern_param c kb index
        (.instancePat (.mk (Symbol.mk "Dictionary") rule_fields)) rule_type_spec
    | _ =>
      let v := c.fmtValue rule_value
      .panicked s!"Value variant {v} cannot be a specializer"
  | .dictionary rule_type_fields =>
    match rule_value with
    | .dictionary rule_fields =>
      if param_fields_match rule_type_fields rule_fields then .ok .isTrue
      else
        let tf := c.fmtDict rule_type_fields
        let rf := c.fmtDict rule_fields
        .ok (.isFalse
          s!"Invalid parameter {index}. Rule type expected Dictionary with fields {tf}, got dictionary with fields {rf}.")
    | _ =>
      let rv := c.fmtValue rule_value
      .ok (.isFalse s!"Invalid parameter {index}. Rule type expected Dictionary, got {rv}.")

/-- kb.rs `check_param`: one rule parameter against one rule-type
parameter.  The arms mirror the source's match, in order. -/
def check_param (c : Collab) (kb : KnowledgeBase) (index : Nat)
    (rule_param rule_type_param : Parameter) : PRes RuleParamMatch :=
  match rule_type_param.parameter.value, rule_type_param.specializer.map Term.value,
      rule_param.parameter.value, rule_param.specializer.map Term.value with
  | .variable _, some (.pattern rule_type_spec), .variable _, some (.pattern rule_spec) =>
    check_pattern_param c kb index rule_spec rule_type_spec
  | .variable _, some (.pattern (.instancePat (.mk tag _))), .variable parameter, none =>
    let p := parameter.name
    let tg := tag.name
    .ok (.isFalse s!"Parameter `{p}` expects a {tg} type constraint.\n\n\t{p}: {tg}")
  | .variable _, some rule_type_spec, .variable _, none =>
    let ts := c.fmtValue rule_type_spec
    .ok (.isFalse s!"Invalid rule parameter {index}. Rule type expected {ts}")
  | .variable _, some (.pattern rule_type_spec), .variable _, some rule_value
  | .variable _, some (.pattern rule_type_spec), rule_value, none =>
    check_promoted_value c kb index rule_type_spec rule_value
  | .variable _, none, _, _ => .ok .isTrue
  | .variable _, some rule_type_value, .variable _, some rule_value
  | .variable _, some rule_type_value, rule_value, none
  | rule_type_value, none, rule_value, none =>
    check_value_param c kb index rule_value rule_type_value
  | _, _, _, _ =>
    let rp := c.fmtParam rule_param
    let tp := c.fmtParam rule_type_param
    .ok (.isFalse
      s!"Invalid parameter {index}. Rule parameter {rp} does not match rule type parameter {tp}")

/-- The enumerated parameter check of kb.rs `rule_params_match` (1-based
indices, fail-fast on errors like `collect` over results). -/
def check_params_loop (c : Collab) (kb : KnowledgeBase) (i : Nat) :
    List (Parameter × Parameter) → PRes (List RuleParamMatch)
  | [] => .ok []
  | (rule_param, rule_type_param) :: rest => do
    let r ← check_param c kb i rule_param rule_type_param
    let rs ← check_params_loop c kb (i + 1) rest
    .ok (r :: rs)

/-- The short-circuiting `all` of kb.rs `rule_params_match`: the message of
the first failing parameter. -/
def first_failure : List RuleParamMatch → Option String
  | [] => none
  | .isTrue :: rest => first_failure rest
  | .isFalse msg :: _ => some msg

/-- kb.rs `rule_params_match`: a rule matches a rule type iff the
parameter counts agree and every corresponding pair matches. -/
def rule_params_match (c : Collab) (kb : KnowledgeBase) (rule rule_type : Rule) :
    PRes RuleParamMatch :=
  if rule.params.length ≠ rule_type.params.length then
    let a := rule.params.length
    let b := rule_type.params.length
    .ok (.isFalse
      s!"Different number of parameters. Rule has {a} parameter(s) but rule type has {b}.")
  else do
    let results ← check_params_loop c kb 1 (rule.params.zip rule_type.params)
    match first_failure results with
    | none => .ok .isTrue
    | some msg => .ok (.isFalse msg)

/-- The per-rule-type collection inside kb.rs `validate_rule_types`
(`collect` over `rule_params_match` results, fail-fast). -/
def collect_matches (c : Collab) (kb : KnowledgeBase) (rule : Rule) :
    List Rule → PRes (List (RuleParamMatch × Rule))
  | [] => .ok []
  | rule_type :: rest => do
    let r ← rule_params_match c kb rule rule_type
    let rs ← collect_matches c kb rule rest
    .ok ((r, rule_type) :: rs)

/-- The short-circuiting `any` of kb.rs `validate_rule_types`: stop at the
first matching rule type, accumulating the failure text of the shapes
tried before it. -/
def fold_found (c : Collab) : List (RuleParamMatch × Rule) → String → Bool × String
  | [], msg => (false, msg)
  | (.isTrue, _) :: _, msg => (true, msg)
  | (.isFalse m, rule_type) :: rest, msg =>
    let tp := c.fmtRule rule_type
    fold_found c rest (msg ++ s!"\n{tp}\n\tFailed to match because: {m}\n")

/-- Phase A of kb.rs `validate_rule_types` for one generic rule: every
rule must match at least one of the shapes, else InvalidRule. -/
def validate_generic_rule (c : Collab) (kb : KnowledgeBase) (types : List Rule) :
    List Rule → PRes Unit
  | [] => .ok ()
  | rule :: rest => do
    let results ← collect_matches c kb rule types
    let p := fold_found c results "Must match one of the following rule types:\n"
    if p.1 then validate_generic_rule c kb types rest
    else .err (set_error_context kb rule.body
      { kind := .validationInvalidRule (c.fmtRule rule) p.2 })

/-- Phase A of kb.rs `validate_rule_types` over all generic rules. -/
def validate_rules_loop (c : Collab) (kb : KnowledgeBase) :
    List (Symbol × GenericRule) → PRes Unit
  | [] => .ok ()
  | (rule_name, generic_rule) :: rest =>
    match mapGet kb.rule_types rule_name with
    | some types => do
      validate_generic_rule c kb types generic_rule.rules
      validate_rules_loop c kb rest
    | none => validate_rules_loop c kb rest

/-- The implementation search of phase B of kb.rs `validate_rule_types`:
first rule matching the required shape, propagating check errors. -/
def find_implementation (c : Collab) (kb : KnowledgeBase) (rule_type : Rule) :
    List Rule → PRes Bool
  | [] => .ok false
  | rule :: rest => do
    let r ← rule_params_match c kb rule rule_type
    match r with
    | .isTrue => .ok true
    | .isFalse _ => find_implementation c kb rule_type rest

/-- Phase B of kb.rs `validate_rule_types`: every required shape needs at
least one matching implementation, else MissingRequiredRule. -/
def required_loop (c : Collab) (kb : KnowledgeBase) : List Rule → PRes Unit
  | [] => .ok ()
  | rule_type :: rest =>
    match mapGet kb.rules rule_type.name with
    | some gr => do
      let found ← find_implementation c kb rule_type gr.rules
      if found then required_loop c kb rest
      else .err (set_error_context kb rule_type.body
        { kind := .validationMissingRequiredRule rule_type })
    | none =>
      .err (set_error_context kb rule_type.body
        { kind := .validationMissingRequiredRule rule_type })

/-- kb.rs `validate_rule_types`: phase A then phase B, stopping at the
first error. -/
def validate_rule_types (c : Collab) (kb : KnowledgeBase) : PRes Unit := do
  validate_rules_loop c kb kb.rules
  required_loop c kb (required_rule_types kb)

/-- kb.rs `validate_rules`: the rule-type error (if any) as a single
diagnostic, followed by the undefined-rule-call diagnostics. -/
def validate_rules (c : Collab) (kb : KnowledgeBase) : PRes (List Diagnostic) :=
  match validate_rule_types c kb with
  | .ok _ => .ok (c.checkUndefinedRuleCalls kb)
  | .err e => .ok (Diagnostic.error e :: c.checkUndefinedRuleCalls kb)
  | .panicked msg => .panicked msg

/-- resource_block.rs `get_relation_type_in_resource_block` (modelled from
the spec): the related class of the relation declared under `resource`. -/
def get_relation_type_in_resource_block (rb : ResourceBlocks) (relation : String)
    (resource : Symbol) : Except PolarError Symbol :=
  match rb.relations.find? (fun r => r.2.1 == relation && r.2.2 == resource) with
  | some r => .ok r.1
  | none =>
    let msg := s!"no relation {relation} declared"
    .error { kind := .validationResourceBlock msg (Term.mk (.str relation) none) }

/-- kb.rs `check_that_resource_block_relations_are_registered`: every
relation's related class must be a registered constant. -/
def check_that_resource_block_relations_are_registered (kb : KnowledgeBase) :
    List PolarError :=
  kb.resource_blocks.relation_tuples.filterMap (fun t =>
    match get_registered_class kb (Term.mk (.variable t.1) none) with
    | .err e => some e
    | _ => none)

/-- kb.rs `rewrite_shorthand_rules`: collect the registration errors and
the rewritten rules; add the rules only when no error occurred. -/
def rewrite_shorthand_rules (c : Collab) (kb : KnowledgeBase) :
    List PolarError × KnowledgeBase :=
  let errors₁ := check_that_resource_block_relations_are_registered kb
  let step := kb.resource_blocks.shorthand_rules.foldl
    (fun (acc : List Rule × List PolarError) p =>
      p.2.foldl (fun acc sh =>
        match c.shorthandAsRule p.1 sh kb.resource_blocks with
        | .ok r => (acc.1 ++ [r], acc.2)
        | .error e => (acc.1, acc.2 ++ [e])) acc)
    ([], [])
  let errors := errors₁ ++ step.2
  if errors.isEmpty then (errors, step.1.foldl add_rule kb)
  else (errors, kb)

/-- The `has_relation` shape built by kb.rs
`create_resource_specific_rule_types` (the `rule!` construction at the end
of the function). -/
def has_relation_rule_type (subject : Symbol) (relation_name : String)
    (object : Symbol) (required : Bool) : Rule :=
  { name := Symbol.mk "has_relation"
    params := [
      { parameter := Term.mk (.variable (Symbol.mk "subject")) none
        specializer := some (Term.mk (.pattern (.instancePat (.mk subject []))) none) },
      { parameter := Term.mk (.str relation_name) none
        specializer := none },
      { parameter := Term.mk (.variable (Symbol.mk "object")) none
        specializer := some (Term.mk (.pattern (.instancePat (.mk object []))) none) }]
    body := Term.mk (.expression .and []) none
    required := required }

/-- The `has_role` shape built by kb.rs
`create_resource_specific_rule_types` when any block declares roles. -/
def has_role_rule_type : Rule :=
  { name := Symbol.mk "has_role"
    params := [
      { parameter := Term.mk (.variable (Symbol.mk "actor")) none
        specializer := some (Term.mk (.pattern (.instancePat
          (.mk (Symbol.mk ACTOR_UNION_NAME) []))) none) },
      { parameter := Term.mk (.variable (Symbol.mk "role")) none
        specializer := some (Term.mk (.pattern (.instancePat
          (.mk (Symbol.mk "String") []))) none) },
      { parameter := Term.mk (.variable (Symbol.mk "resource")) none
        specializer := some (Term.mk (.pattern (.instancePat
          (.mk (Symbol.mk RESOURCE_UNION_NAME) []))) none) }]
    body := Term.mk (.expression .and []) none
    required := true }

/-- kb.rs `create_resource_specific_rule_types`: advisory shapes for every
declared relation, required shapes for every relation traversed by a
shorthand rule (including the chained case), plus the required `has_role`
shape when roles exist. -/
def create_resource_specific_rule_types (kb : KnowledgeBase) : KnowledgeBase :=
  let m : List ((Symbol × String × Symbol) × Bool) :=
    kb.resource_blocks.relation_tuples.foldl (fun m t => mapInsert m t false) []
  let m := kb.resource_blocks.shorthand_rules.foldl (fun m p =>
    p.2.foldl (fun m sh =>
      match sh.body with
      | (implier, some relation) =>
        match get_relation_type_in_resource_block kb.resource_blocks relation p.1 with
        | .ok subject =>
          let m := mapInsert m (subject, relation, p.1) true
          match get_relation_type_in_resource_block kb.resource_blocks implier subject with
          | .ok related_subject => mapInsert m (related_subject, implier, subject) true
          | .error _ => m
        | .error _ => m
      | (implier, none) =>
        match get_relation_type_in_resource_block kb.resource_blocks implier p.1 with
        | .ok subject => mapInsert m (subject, implier, p.1) true
        | .error _ => m) m) m
  let rule_types := m.map (fun e => has_relation_rule_type e.1.1 e.1.2.1 e.1.2.2 e.2)
  let rule_types :=
    if kb.resource_blocks.has_roles then rule_types ++ [has_role_rule_type]
    else rule_types
  rule_types.foldl add_rule_type kb

/-- polar.rs `Polar`: the knowledge base, the warning queue, and the lint
toggle (the environment-variable read of `Polar::new` becomes the
parameter of `Polar.mkNew`). -/
structure Polar where
  kb : KnowledgeBase
  messages : List PolarError
  ignore_no_allow_warning : Bool

/-- polar.rs `Polar::new`. -/
def Polar.mkNew (ignore_no_allow_warning : Bool) : Polar :=
  { kb := KnowledgeBase.new, messages := [], ignore_no_allow_warning := ignore_no_allow_warning }

/-- polar.rs `MULTIPLE_LOAD_ERROR_MSG`. -/
def MULTIPLE_LOAD_ERROR_MSG : String :=
  "Cannot load additional Polar code -- all Polar code must be loaded at the same time."

/-- polar.rs `diagnostic_load`'s inner `load_source`: parse one source and
ingest its lines in parse order (the source reverses and pops, which walks
the lines front to back). -/
def load_source (c : Collab) (source_id : Nat) (source : Source)
    (kb : KnowledgeBase) : Except PolarError (List Diagnostic) × KnowledgeBase :=
  match c.parseLines source_id source.src with
  | .error e => (.error { e with ctxSource := some source, ctxTerm := none }, kb)
  | .ok lines =>
    let r := lines.foldl (fun (acc : List Diagnostic × KnowledgeBase) line =>
      let ds := acc.1
      let kb := acc.2
      match line with
      | .rule rule =>
        let ds := ds ++ c.checkSingletons kb rule ++ c.checkAmbiguousPrecedence kb rule
        let p := c.rewriteRule rule kb.gensym_counter
        let kb := { kb with gensym_counter := p.2 }
        (ds, add_rule kb p.1)
      | .query t => (ds, { kb with inline_queries := kb.inline_queries ++ [t] })
      | .ruleType rule_type =>
        let p := c.rewriteRule rule_type kb.gensym_counter
        let kb := { kb with gensym_counter := p.2 }
        let rule_type := p.1
        match rule_type.body.value with
        | .expression .and [] => (ds, add_rule_type kb rule_type)
        | _ =>
          let e := set_error_context kb rule_type.body
            { kind := .validationInvalidRuleType (c.fmtRule rule_type)
                "\nRule types cannot contain dot lookups." }
          (ds ++ [Diagnostic.error e], kb)
      | .resourceBlock data =>
        let p := c.ingestResourceBlock data kb.resource_blocks
        (ds ++ p.2.map Diagnostic.error, { kb with resource_blocks := p.1 }))
      ([], kb)
    (.ok r.1, r.2)

/-- The per-source loop of polar.rs `diagnostic_load`: register each
source and ingest it, turning failures into error diagnostics. -/
def ingest_sources (c : Collab) (srcs : List Source) (kb : KnowledgeBase) :
    List Diagnostic × KnowledgeBase :=
  srcs.foldl (fun (acc : List Diagnostic × KnowledgeBase) source =>
    let ds := acc.1
    match add_source acc.2 source with
    | (.ok source_id, kb) =>
      match load_source c source_id source kb with
      | (.ok ds2, kb) => (ds ++ ds2, kb)
      | (.error e, kb) => (ds ++ [Diagnostic.error e], kb)
    | (.err e, kb) => (ds ++ [Diagnostic.error e], kb)
    -- add_source never panics (check_file only returns ok or err); this
    -- arm is dead and only totalizes the match.
    | (.panicked _, kb) => (ds, kb)) ([], kb)

/-- The context-attachment loop of polar.rs `diagnostic_load`: attach
source positions to ResourceBlock, SingletonVariable and UnregisteredClass
errors. -/
def attach_context (kb : KnowledgeBase) (ds : List Diagnostic) : List Diagnostic :=
  ds.map (fun d =>
    match d with
    | .error e =>
      match e.kind with
      | .validationResourceBlock _ term => .error (set_error_context kb term e)
      | .validationSingletonVariable _ term => .error (set_error_context kb term e)
      | .validationUnregisteredClass term => .error (set_error_context kb term e)
      | _ => d
    | .warning _ => d)

/-- The loading half of polar.rs `diagnostic_load`: ingest all sources,
rewrite shorthand rules, attach error context, and generate the
resource-specific rule types. -/
def load_phase (c : Collab) (srcs : List Source) (kb : KnowledgeBase) :
    List Diagnostic × KnowledgeBase :=
  let p := ingest_sources c srcs kb
  let q := rewrite_shorthand_rules c p.2
  let ds := attach_context q.2 (p.1 ++ q.1.map Diagnostic.error)
  (ds, create_resource_specific_rule_types q.2)

/-- polar.rs `diagnostic_load`: load, then clear the rules and stop if any
error was collected; otherwise validate and lint, clearing again if any
error is now present. -/
def diagnostic_load (c : Collab) (ignore_no_allow_warning : Bool)
    (srcs : List Source) (kb : KnowledgeBase) :
    PRes (List Diagnostic × KnowledgeBase) :=
  let p := load_phase c srcs kb
  let ds := p.1
  let kb1 := p.2
  if ds.any Diagnostic.isError then .ok (ds, clear_rules kb1)
  else
    match validate_rules c kb1 with
    | .panicked msg => .panicked msg
    | .err e => .err e
    | .ok ds2 =>
      let ds := ds ++ ds2
      let ds := if ignore_no_allow_warning then ds
        else ds ++ (c.checkNoAllowRule kb1).toList
      let ds := ds ++ (c.checkResourceBlocksMissingHasPermission kb1).toList
      if ds.any Diagnostic.isError then .ok (ds, clear_rules kb1)
      else .ok (ds, kb1)

/-- polar.rs `load`: refuse when the KB already has rules, otherwise run
`diagnostic_load`, queue the warnings, and raise the first error. -/
def load (c : Collab) (srcs : List Source) (p : Polar) : PRes Unit × Polar :=
  if has_rules p.kb then
    (.err { kind := .runtimeFileLoading MULTIPLE_LOAD_ERROR_MSG }, p)
  else
    match diagnostic_load c p.ignore_no_allow_warning srcs p.kb with
    | .panicked msg => (.panicked msg, p)
    | .err e => (.err e, p)
    | .ok (ds, kb') =>
      let errors := ds.filterMap (fun d =>
        match d with
        | .error e => some e
        | .warning _ => none)
      let warnings := ds.filterMap (fun d =>
        match d with
        | .warning w => some w
        | .error _ => none)
      let p' := { p with kb := kb', messages := p.messages ++ warnings }
      match errors with
      | e :: _ => (.err e, p')
      | [] => (.ok (), p')

/-! ## Supporting lemmas -/

theorem mapGet_mapInsert {κ ν : Type} [DecidableEq κ] (m : List (κ × ν)) (k k' : κ)
    (v : ν) : mapGet (mapInsert m k v) k' = if k = k' then some v else mapGet m k' := by
  induction m with
  | nil => simp [mapInsert, mapGet]
  | cons hd tl ih =>
    obtain ⟨k₀, v₀⟩ := hd
    by_cases h : k₀ = k
    · subst h
      simp only [mapInsert, if_pos rfl, mapGet]
      by_cases h' : k₀ = k'
      · simp [h']
      · simp [h', mapGet]
    · simp only [mapInsert, if_neg h, mapGet]
      by_cases h' : k₀ = k'
      · have hkk : ¬ k = k' := fun e => h (h'.trans e.symm)
        simp [h', hkk]
      · simp [h', ih]

/-! ## Claim C7: register_constant and is_union -/

/-- C7: register_constant(name, value) returns a TypeError and leaves the
constant table unchanged when name is Actor or Resource; for any other name
it inserts the binding and returns Ok; and is_union(t) holds iff t's tag is
exactly Actor or Resource. -/
theorem register_constant_rejects_unions_and_is_union_spec
    (kb : KnowledgeBase) (name : Symbol) (value : Term) :
    ((name.name = ACTOR_UNION_NAME ∨ name.name = RESOURCE_UNION_NAME) →
      (register_constant kb name value).1 =
        .err { kind := .runtimeTypeError (register_constant_rejection_msg name) } ∧
      (register_constant kb name value).2 = kb) ∧
    (¬(name.name = ACTOR_UNION_NAME ∨ name.name = RESOURCE_UNION_NAME) →
      (register_constant kb name value).1 = .ok () ∧
      mapGet (register_constant kb name value).2.constants name = some value) ∧
    (∀ t : Term, is_union kb t = true ↔
      (t.tag_symbol = some (Symbol.mk ACTOR_UNION_NAME) ∨
        t.tag_symbol = some (Symbol.mk RESOURCE_UNION_NAME))) := by
  refine ⟨fun h => ?_, fun h => ?_, fun t => ?_⟩
  · simp [register_constant, h]
  · simp [register_constant, h, mapGet_mapInsert]
  · simp [is_union, Term.is_actor_union, Term.is_resource_union]

/-- Witness for C7 at concrete inputs: registering Actor fails and leaves
the table unchanged, registering User succeeds, and a User-tagged variable
term is not a union while an Actor-tagged one is. -/
theorem register_constant_rejects_unions_and_is_union_spec_witness :
    (register_constant KnowledgeBase.new (Symbol.mk "Actor")
        (Term.mk (.boolean true) none)).1 =
      .err { kind := .runtimeTypeError (register_constant_rejection_msg (Symbol.mk "Actor")) } ∧
    (register_constant KnowledgeBase.new (Symbol.mk "Actor")
        (Term.mk (.boolean true) none)).2 = KnowledgeBase.new ∧
    mapGet (register_constant KnowledgeBase.new (Symbol.mk "User")
        (Term.mk (.boolean true) none)).2.constants (Symbol.mk "User") =
      some (Term.mk (.boolean true) none) ∧
    is_union KnowledgeBase.new (Term.mk (.variable (Symbol.mk "Actor")) none) = true := by
  have h₁ := (register_constant_rejects_unions_and_is_union_spec KnowledgeBase.new
    (Symbol.mk "Actor") (Term.mk (.boolean true) none)).1 (Or.inl rfl)
  have h₂ := ((register_constant_rejects_unions_and_is_union_spec KnowledgeBase.new
    (Symbol.mk "User") (Term.mk (.boolean true) none)).2.1 (by simp [ACTOR_UNION_NAME, RESOURCE_UNION_NAME])).2
  have h₃ := ((register_constant_rejects_unions_and_is_union_spec KnowledgeBase.new
    (Symbol.mk "Actor") (Term.mk (.boolean true) none)).2.2
      (Term.mk (.variable (Symbol.mk "Actor")) none)).mpr (Or.inl rfl)
  exact ⟨h₁.1, h₁.2, h₂, h₃⟩

/-! ## Claim C8: clear_rules is idempotent and preserves constants/MROs -/

/-- C8: clear_rules twice equals clear_rules once; afterwards has_rules is
false and the inline queries are empty, while constants and MROs are
exactly what they were before. -/
theorem clear_rules_idempotent_spec (kb : KnowledgeBase) :
    clear_rules (clear_rules kb) = clear_rules kb ∧
    has_rules (clear_rules kb) = false ∧
    (clear_rules kb).inline_queries = [] ∧
    (clear_rules kb).constants = kb.constants ∧
    (clear_rules kb).mro = kb.mro :=
  ⟨rfl, rfl, rfl, rfl, rfl⟩

/-! ## Claim C9: add_mro requires a registered constant -/

/-- C9: add_mro(name, mro) succeeds and records the MRO iff is_constant
holds; otherwise it returns an InvalidState error and the MRO table is
unchanged. -/
theorem add_mro_requires_registered_class (kb : KnowledgeBase) (name : Symbol)
    (mro : List Nat) :
    (is_constant kb name = true →
      (add_mro kb name mro).1 = .ok () ∧
      mapGet (add_mro kb name mro).2.mro name = some mro) ∧
    (is_constant kb name = false →
      (add_mro kb name mro).1 =
        .err { kind := .operationalInvalidState (add_mro_unregistered_msg name) } ∧
      (add_mro kb name mro).2 = kb) := by
  constructor
  · intro h
    simp [add_mro, h, mapGet_mapInsert]
  · intro h
    simp [add_mro, h]

/-- Witness for C9: in the fresh KB nothing is registered, so add_mro
fails with InvalidState and changes nothing; after registering the class
it succeeds and records the MRO. -/
theorem add_mro_requires_registered_class_witness :
    (add_mro KnowledgeBase.new (Symbol.mk "Fruit") [1]).1 =
      .err { kind := .operationalInvalidState (add_mro_unregistered_msg (Symbol.mk "Fruit")) } ∧
    (add_mro KnowledgeBase.new (Symbol.mk "Fruit") [1]).2 = KnowledgeBase.new ∧
    mapGet (add_mro (register_constant KnowledgeBase.new (Symbol.mk "Fruit")
        (Term.mk (.boolean true) none)).2 (Symbol.mk "Fruit") [1]).2.mro
      (Symbol.mk "Fruit") = some [1] := by
  have h₁ := (add_mro_requires_registered_class KnowledgeBase.new
    (Symbol.mk "Fruit") [1]).2 rfl
  have h₂ := (add_mro_requires_registered_class
    (register_constant KnowledgeBase.new (Symbol.mk "Fruit")
      (Term.mk (.boolean true) none)).2 (Symbol.mk "Fruit") [1]).1 rfl
  exact ⟨h₁.1, h₁.2, h₂.2⟩

/-- A concrete instantiation of the collaborator record, used to evaluate
the embedded code on closed inputs (the collaborators' outputs are
irrelevant to the properties evaluated there). -/
def trivialCollab : Collab :=
  { fmtRule := fun _ => ""
    fmtValue := fun _ => ""
    fmtInstance := fun _ => ""
    fmtFields := fun _ => ""
    fmtPattern := fun _ => ""
    fmtTermList := fun _ => ""
    fmtDict := fun _ => ""
    fmtParam := fun _ => ""
    parseLines := fun _ _ => .ok []
    rewriteRule := fun r n => (r, n)
    checkSingletons := fun _ _ => []
    checkAmbiguousPrecedence := fun _ _ => []
    ingestResourceBlock := fun _ rb => (rb, [])
    shorthandAsRule := fun _ _ _ =>
      .error { kind := .validationResourceBlock "unused" (Term.mk (.boolean true) none) }
    checkUndefinedRuleCalls := fun _ => []
    checkNoAllowRule := fun _ => none
    checkResourceBlocksMissingHasPermission := fun _ => none }

theorem bool_eq_of_iff {a b : Bool} (h : a = true ↔ b = true) : a = b := by
  cases a <;> cases b <;> simp_all

theorem list_all_congr {α : Type} (l : List α) (f g : α → Bool)
    (h : ∀ a ∈ l, f a = g a) : l.all f = l.all g := by
  induction l with
  | nil => rfl
  | cons hd tl ih =>
    simp only [List.all_cons, h hd (by simp)]
    rw [ih (fun a ha => h a (by simp [ha]))]

/-! ## Claim C4: the add_source de-duplication rules -/

/-- Claim-side (C4): fold add_source over a list of sources. -/
def runAdds (srcs : List Source) (kb : KnowledgeBase) : KnowledgeBase :=
  srcs.foldl (fun k s => (add_source k s).2) kb

/-- Claim-side (C4): the sources such a fold accepted, in order. -/
def acceptedSources : List Source → KnowledgeBase → List Source
  | [], _ => []
  | s :: rest, kb =>
    match (add_source kb s).1 with
    | .ok _ => s :: acceptedSources rest (add_source kb s).2
    | _ => acceptedSources rest (add_source kb s).2

/-- Claim-side (C4): the KB after loading `srcs` into a fresh KB. -/
def loadedKB (srcs : List Source) : KnowledgeBase :=
  runAdds srcs KnowledgeBase.new

/-- Claim-side (C4): the sources accepted while loading `srcs` into a
fresh KB. -/
def loadedAccepted (srcs : List Source) : List Source :=
  acceptedSources srcs KnowledgeBase.new

/-- Claim case 1 (C4): the same (contents, filename) pair was already
loaded. -/
def pairAlreadyLoaded (acc : List Source) (c f : String) : Prop :=
  Source.mk c (some f) ∈ acc

/-- Claim case 2 (C4): the filename was already loaded with different
contents. -/
def filenameLoadedWithDifferentContents (acc : List Source) (c f : String) : Prop :=
  ∃ c', c' ≠ c ∧ Source.mk c' (some f) ∈ acc

/-- Claim case 3 (C4): the same contents were already loaded under a
different filename. -/
def contentsLoadedUnderDifferentFilename (acc : List Source) (c f : String) : Prop :=
  ∃ f', f' ≠ f ∧ Source.mk c (some f') ∈ acc

/-- The two de-duplication maps agree with the history of accepted
sources. -/
def SourceMapsInv (kb : KnowledgeBase) (acc : List Source) : Prop :=
  (∀ c f, mapGet kb.loaded_content c = some f ↔ Source.mk c (some f) ∈ acc) ∧
  (∀ f, (mapGet kb.loaded_files f).isSome = true ↔ ∃ c, Source.mk c (some f) ∈ acc)

theorem check_file_ok_iff (kb : KnowledgeBase) (src filename : String) :
    check_file kb src filename = .ok () ↔
      (mapGet kb.loaded_content src = none ∧
        (mapGet kb.loaded_files filename).isSome = false) := by
  unfold check_file
  rcases hcg : mapGet kb.loaded_content src with _ | g
  · cases hfg : (mapGet kb.loaded_files filename).isSome
    · simp [hcg, hfg]
    · simp [hcg, hfg]
  · cases hfg : (mapGet kb.loaded_files filename).isSome
    · simp [hcg, hfg]
    · by_cases hgf : g = filename <;> simp [hcg, hfg, hgf]

theorem add_source_fst (kb : KnowledgeBase) (c f : String) :
    (add_source kb (Source.mk c (some f))).1 =
      match mapGet kb.loaded_content c, (mapGet kb.loaded_files f).isSome with
      | some other_file, true =>
        if other_file = f then
          .err { kind := .runtimeFileLoading (file_already_loaded_msg f) }
        else
          .err { kind := .runtimeFileLoading (file_different_contents_msg f) }
      | none, true => .err { kind := .runtimeFileLoading (file_different_contents_msg f) }
      | some other_file, false =>
        .err { kind := .runtimeFileLoading (file_same_contents_msg f other_file) }
      | none, false => .ok kb.id_counter := by
  unfold add_source KnowledgeBase.new_id counter_next check_file
  dsimp only
  rcases hcg : mapGet kb.loaded_content c with _ | g <;>
    cases hfg : (mapGet kb.loaded_files f).isSome <;>
      simp [hcg, hfg]
  split_ifs <;> simp

theorem add_source_none_eq (kb : KnowledgeBase) (c : String) :
    add_source kb (Source.mk c none) =
      (.ok kb.id_counter,
        { kb with
          id_counter := (kb.id_counter + 1) % 2 ^ 52
          sources := sourcesAdd kb.sources (Source.mk c none) kb.id_counter }) := rfl

theorem add_source_some_ok (kb : KnowledgeBase) (c₀ f₀ : String)
    (hc : check_file { kb with id_counter := (kb.id_counter + 1) % 2 ^ 52 } c₀ f₀ = .ok ()) :
    add_source kb (Source.mk c₀ (some f₀)) =
      (.ok kb.id_counter,
        { kb with
          id_counter := (kb.id_counter + 1) % 2 ^ 52
          loaded_content := mapInsert kb.loaded_content c₀ f₀
          loaded_files := mapInsert kb.loaded_files f₀ kb.id_counter
          sources := sourcesAdd kb.sources (Source.mk c₀ (some f₀)) kb.id_counter }) := by
  unfold add_source KnowledgeBase.new_id counter_next
  dsimp only
  rw [hc]

theorem add_source_some_err (kb : KnowledgeBase) (c₀ f₀ : String) (e : PolarError)
    (hc : check_file { kb with id_counter := (kb.id_counter + 1) % 2 ^ 52 } c₀ f₀ = .err e) :
    add_source kb (Source.mk c₀ (some f₀)) =
      (.err e, { kb with id_counter := (kb.id_counter + 1) % 2 ^ 52 }) := by
  unfold add_source KnowledgeBase.new_id counter_next
  dsimp only
  rw [hc]

theorem add_source_some_panicked (kb : KnowledgeBase) (c₀ f₀ : String) (m : String)
    (hc : check_file { kb with id_counter := (kb.id_counter + 1) % 2 ^ 52 } c₀ f₀ =
      .panicked m) :
    add_source kb (Source.mk c₀ (some f₀)) =
      (.panicked m, { kb with id_counter := (kb.id_counter + 1) % 2 ^ 52 }) := by
  unfold add_source KnowledgeBase.new_id counter_next
  dsimp only
  rw [hc]

theorem add_source_inv (kb : KnowledgeBase) (acc : List Source)
    (h : SourceMapsInv kb acc) (s : Source) :
    SourceMapsInv (add_source kb s).2
      (acc ++ match (add_source kb s).1 with | .ok _ => [s] | _ => []) := by
  obtain ⟨c₀, fo⟩ := s
  cases fo with
  | none =>
    rw [add_source_none_eq]
    refine ⟨fun c f => ?_, fun f => ?_⟩
    · simpa using h.1 c f
    · simpa using h.2 f
  | some f₀ =>
    rcases hc : check_file { kb with id_counter := (kb.id_counter + 1) % 2 ^ 52 } c₀ f₀
      with u | e | m
    · cases u
      have hok := (check_file_ok_iff _ c₀ f₀).mp hc
      have hnone : mapGet kb.loaded_content c₀ = none := hok.1
      have hfiles : (mapGet kb.loaded_files f₀).isSome = false := hok.2
      rw [add_source_some_ok kb c₀ f₀ hc]
      dsimp only
      constructor
      · intro c f
        rw [mapGet_mapInsert]
        by_cases hcc : c₀ = c
        · subst hcc
          simp only [if_pos rfl]
          constructor
          · intro h'
            have hf : f₀ = f := by
              simpa using h'
            subst hf
            exact List.mem_append.mpr (Or.inr (by simp))
          · intro hmem
            rcases List.mem_append.mp hmem with hm | hm
            · have := (h.1 c₀ f).mpr hm
              rw [hnone] at this
              cases this
            · have : f = f₀ := by simpa using hm
              simp [this]
        · simp only [if_neg hcc]
          rw [h.1 c f]
          constructor
          · exact fun hm => List.mem_append.mpr (Or.inl hm)
          · intro hmem
            rcases List.mem_append.mp hmem with hm | hm
            · exact hm
            · have hcc' : c = c₀ ∧ f = f₀ := by simpa using hm
              exact absurd hcc'.1.symm hcc
      · intro f
        rw [mapGet_mapInsert]
        by_cases hff : f₀ = f
        · subst hff
          simp only [if_pos rfl]
          constructor
          · intro _
            exact ⟨c₀, List.mem_append.mpr (Or.inr (by simp))⟩
          · intro _
            simp
        · simp only [if_neg hff]
          rw [h.2 f]
          constructor
          · rintro ⟨c', hm⟩
            exact ⟨c', List.mem_append.mpr (Or.inl hm)⟩
          · rintro ⟨c', hm⟩
            rcases List.mem_append.mp hm with hm | hm
            · exact ⟨c', hm⟩
            · have hff' : c' = c₀ ∧ f = f₀ := by simpa using hm
              exact absurd hff'.2.symm hff
    · rw [add_source_some_err kb c₀ f₀ e hc]
      dsimp only
      simp only [List.append_nil]
      exact h
    · rw [add_source_some_panicked kb c₀ f₀ m hc]
      dsimp only
      simp only [List.append_nil]
      exact h

theorem runAdds_cons (s : Source) (rest : List Source) (kb : KnowledgeBase) :
    runAdds (s :: rest) kb = runAdds rest (add_source kb s).2 := rfl

theorem runAdds_inv : ∀ (srcs : List Source) (kb : KnowledgeBase) (acc : List Source),
    SourceMapsInv kb acc →
    SourceMapsInv (runAdds srcs kb) (acc ++ acceptedSources srcs kb) := by
  intro srcs
  induction srcs with
  | nil =>
    intro kb acc h
    simpa [runAdds, acceptedSources] using h
  | cons s rest ih =>
    intro kb acc h
    have hstep := add_source_inv kb acc h s
    have hunfold : acceptedSources (s :: rest) kb =
        (match (add_source kb s).1 with
          | PRes.ok _ => s :: acceptedSources rest (add_source kb s).2
          | _ => acceptedSources rest (add_source kb s).2) := rfl
    rw [runAdds_cons]
    rcases hfst : (add_source kb s).1 with a | e | m
    · rw [hfst] at hstep hunfold
      dsimp only at hstep hunfold
      have hrec := ih (add_source kb s).2 (acc ++ [s]) hstep
      rw [hunfold, List.append_cons]
      exact hrec
    · rw [hfst] at hstep hunfold
      dsimp only at hstep hunfold
      rw [List.append_nil] at hstep
      have hrec := ih (add_source kb s).2 acc hstep
      rw [hunfold]
      exact hrec
    · rw [hfst] at hstep hunfold
      dsimp only at hstep hunfold
      rw [List.append_nil] at hstep
      have hrec := ih (add_source kb s).2 acc hstep
      rw [hunfold]
      exact hrec

theorem loadedKB_inv (srcs : List Source) :
    SourceMapsInv (loadedKB srcs) (loadedAccepted srcs) := by
  have hbase : SourceMapsInv KnowledgeBase.new [] := by
    constructor
    · intro c f
      simp [KnowledgeBase.new, mapGet]
    · intro f
      simp [KnowledgeBase.new, mapGet]
  simpa [loadedKB, loadedAccepted] using runAdds_inv srcs KnowledgeBase.new [] hbase

/-- C4: after any sequence of add_source calls on a fresh KB, a further
add_source carrying a filename fails with a FileLoading error in exactly
the three claimed cases, each with its own message (read in order, first
matching case applies), succeeds in every other case, and a source with no
filename is never rejected. -/
theorem add_source_dedup_spec (srcs : List Source) (c f : String) :
    (pairAlreadyLoaded (loadedAccepted srcs) c f →
      (add_source (loadedKB srcs) (Source.mk c (some f))).1 =
        .err { kind := .runtimeFileLoading (file_already_loaded_msg f) }) ∧
    (¬ pairAlreadyLoaded (loadedAccepted srcs) c f →
      filenameLoadedWithDifferentContents (loadedAccepted srcs) c f →
      (add_source (loadedKB srcs) (Source.mk c (some f))).1 =
        .err { kind := .runtimeFileLoading (file_different_contents_msg f) }) ∧
    (¬ pairAlreadyLoaded (loadedAccepted srcs) c f →
      ¬ filenameLoadedWithDifferentContents (loadedAccepted srcs) c f →
      contentsLoadedUnderDifferentFilename (loadedAccepted srcs) c f →
      ∃ f', f' ≠ f ∧ Source.mk c (some f') ∈ loadedAccepted srcs ∧
        (add_source (loadedKB srcs) (Source.mk c (some f))).1 =
          .err { kind := .runtimeFileLoading (file_same_contents_msg f f') }) ∧
    (¬ pairAlreadyLoaded (loadedAccepted srcs) c f →
      ¬ filenameLoadedWithDifferentContents (loadedAccepted srcs) c f →
      ¬ contentsLoadedUnderDifferentFilename (loadedAccepted srcs) c f →
      (add_source (loadedKB srcs) (Source.mk c (some f))).1 =
        .ok (loadedKB srcs).id_counter) ∧
    (∀ c', (add_source (loadedKB srcs) (Source.mk c' none)).1 =
      .ok (loadedKB srcs).id_counter) := by
  obtain ⟨h1, h2⟩ := loadedKB_inv srcs
  refine ⟨?_, ?_, ?_, ?_, ?_⟩
  · intro hp
    have hc : mapGet (loadedKB srcs).loaded_content c = some f := (h1 c f).mpr hp
    have hf : (mapGet (loadedKB srcs).loaded_files f).isSome = true := (h2 f).mpr ⟨c, hp⟩
    rw [add_source_fst, hc, hf]
    simp
  · intro hnp hnd
    obtain ⟨c', hne, hm⟩ := hnd
    have hf : (mapGet (loadedKB srcs).loaded_files f).isSome = true := (h2 f).mpr ⟨c', hm⟩
    rcases hcg : mapGet (loadedKB srcs).loaded_content c with _ | g
    · rw [add_source_fst, hcg, hf]
    · have hmem := (h1 c g).mp hcg
      have hgf : ¬ g = f := fun he => hnp (he ▸ hmem)
      rw [add_source_fst, hcg, hf]
      simp [hgf]
  · intro hnp hnd hcd
    obtain ⟨f', hne, hm⟩ := hcd
    have hcg : mapGet (loadedKB srcs).loaded_content c = some f' := (h1 c f').mpr hm
    have hfg : (mapGet (loadedKB srcs).loaded_files f).isSome = false := by
      cases hb : (mapGet (loadedKB srcs).loaded_files f).isSome with
      | false => rfl
      | true =>
        obtain ⟨c'', hm''⟩ := (h2 f).mp hb
        by_cases hcc : c'' = c
        · exact absurd (hcc ▸ hm'') hnp
        · exact absurd ⟨c'', hcc, hm''⟩ hnd
    exact ⟨f', hne, hm, by rw [add_source_fst, hcg, hfg]⟩
  · intro hnp hnd hncd
    have hcg : mapGet (loadedKB srcs).loaded_content c = none := by
      cases hcg : mapGet (loadedKB srcs).loaded_content c with
      | none => rfl
      | some g =>
        have hmem := (h1 c g).mp hcg
        by_cases hgf : g = f
        · exact absurd (hgf ▸ hmem) hnp
        · exact absurd ⟨g, hgf, hmem⟩ hncd
    have hfg : (mapGet (loadedKB srcs).loaded_files f).isSome = false := by
      cases hb : (mapGet (loadedKB srcs).loaded_files f).isSome with
      | false => rfl
      | true =>
        obtain ⟨c'', hm''⟩ := (h2 f).mp hb
        by_cases hcc : c'' = c
        · exact absurd (hcc ▸ hm'') hnp
        · exact absurd ⟨c'', hcc, hm''⟩ hnd
    rw [add_source_fst, hcg, hfg]
  · intro c'
    rfl

/-- Witness for C4 at concrete inputs: after loading (f(); , f) and
(g(); , g), re-adding the first pair fails with the already-loaded
message, adding the same name with new contents fails with the
different-contents message, the same contents under a new name fails with
the same-contents message, a fresh pair succeeds, and a source without a
filename succeeds. -/
theorem add_source_dedup_spec_witness :
    ((add_source (loadedKB [Source.mk "f();" (some "f"), Source.mk "g();" (some "g")])
        (Source.mk "f();" (some "f"))).1 =
      .err { kind := .runtimeFileLoading (file_already_loaded_msg "f") }) ∧
    ((add_source (loadedKB [Source.mk "f();" (some "f"), Source.mk "g();" (some "g")])
        (Source.mk "h();" (some "f"))).1 =
      .err { kind := .runtimeFileLoading (file_different_contents_msg "f") }) ∧
    ((add_source (loadedKB [Source.mk "f();" (some "f"), Source.mk "g();" (some "g")])
        (Source.mk "f();" (some "h"))).1 =
      .err { kind := .runtimeFileLoading (file_same_contents_msg "h" "f") }) ∧
    ((add_source (loadedKB [Source.mk "f();" (some "f"), Source.mk "g();" (some "g")])
        (Source.mk "h();" (some "h"))).1 =
      .ok (loadedKB [Source.mk "f();" (some "f"), Source.mk "g();" (some "g")]).id_counter) ∧
    ((add_source (loadedKB [Source.mk "f();" (some "f"), Source.mk "g();" (some "g")])
        (Source.mk "q();" none)).1 =
      .ok (loadedKB [Source.mk "f();" (some "f"), Source.mk "g();" (some "g")]).id_counter) := by
  have hacc : loadedAccepted [Source.mk "f();" (some "f"), Source.mk "g();" (some "g")] =
      [Source.mk "f();" (some "f"), Source.mk "g();" (some "g")] := rfl
  refine ⟨?_, ?_, ?_, ?_, ?_⟩
  · refine (add_source_dedup_spec [Source.mk "f();" (some "f"), Source.mk "g();" (some "g")]
      "f();" "f").1 ?_
    unfold pairAlreadyLoaded
    rw [hacc]
    simp
  · refine (add_source_dedup_spec [Source.mk "f();" (some "f"), Source.mk "g();" (some "g")]
      "h();" "f").2.1 ?_ ?_
    · unfold pairAlreadyLoaded
      rw [hacc]
      simp
    · refine ⟨"f();", by simp, ?_⟩
      rw [hacc]
      simp
  · obtain ⟨f', hne, hm, hres⟩ :=
      (add_source_dedup_spec [Source.mk "f();" (some "f"), Source.mk "g();" (some "g")]
        "f();" "h").2.2.1
        (by
          unfold pairAlreadyLoaded
          rw [hacc]
          simp)
        (by
          unfold filenameLoadedWithDifferentContents
          rw [hacc]
          rintro ⟨c', hne', hm'⟩
          simp at hm')
        ⟨"f", by simp, by rw [hacc]; simp⟩
    rw [hacc] at hm
    simp at hm
    rw [hm] at hres
    exact hres
  · refine (add_source_dedup_spec [Source.mk "f();" (some "f"), Source.mk "g();" (some "g")]
      "h();" "h").2.2.2.1 ?_ ?_ ?_
    · unfold pairAlreadyLoaded
      rw [hacc]
      simp
    · unfold filenameLoadedWithDifferentContents
      rw [hacc]
      rintro ⟨c', hne', hm'⟩
      simp at hm'
    · unfold contentsLoadedUnderDifferentFilename
      rw [hacc]
      rintro ⟨f', hne', hm'⟩
      simp at hm'
  · exact (add_source_dedup_spec [Source.mk "f();" (some "f"), Source.mk "g();" (some "g")]
      "x" "y").2.2.2.2 "q();"

/-! ## Claim C10: a failing add_source still advances the id counter -/

/-- C10: an add_source call that returns a FileLoading error has already
drawn a fresh id from the shared counter, and leaves the source map, the
filename-to-id map and the contents-to-filename map exactly as they
were. -/
theorem add_source_failure_advances_counter (kb : KnowledgeBase) (source : Source)
    (e : PolarError) (h : (add_source kb source).1 = .err e) :
    (add_source kb source).2.id_counter = (kb.id_counter + 1) % 2 ^ 52 ∧
    (add_source kb source).2.sources = kb.sources ∧
    (add_source kb source).2.loaded_files = kb.loaded_files ∧
    (add_source kb source).2.loaded_content = kb.loaded_content := by
  unfold add_source KnowledgeBase.new_id counter_next at h ⊢
  dsimp only at h ⊢
  split at h
  · split at h
    · simp at h
    · exact ⟨rfl, rfl, rfl, rfl⟩
    · simp at h
  · simp at h

/-- Witness for C10: loading the same file twice makes the second
add_source fail while the counter advanced from 1 to 2 and the maps kept
their single entry. -/
theorem add_source_failure_advances_counter_witness :
    ((add_source (add_source KnowledgeBase.new (Source.mk "f();" (some "f"))).2
        (Source.mk "f();" (some "f"))).2.id_counter =
      ((add_source KnowledgeBase.new (Source.mk "f();" (some "f"))).2.id_counter + 1)
        % 2 ^ 52) ∧
    ((add_source (add_source KnowledgeBase.new (Source.mk "f();" (some "f"))).2
        (Source.mk "f();" (some "f"))).2.sources =
      (add_source KnowledgeBase.new (Source.mk "f();" (some "f"))).2.sources) ∧
    ((add_source (add_source KnowledgeBase.new (Source.mk "f();" (some "f"))).2
        (Source.mk "f();" (some "f"))).2.loaded_files =
      (add_source KnowledgeBase.new (Source.mk "f();" (some "f"))).2.loaded_files) ∧
    ((add_source (add_source KnowledgeBase.new (Source.mk "f();" (some "f"))).2
        (Source.mk "f();" (some "f"))).2.loaded_content =
      (add_source KnowledgeBase.new (Source.mk "f();" (some "f"))).2.loaded_content) := by
  have h : (add_source (add_source KnowledgeBase.new (Source.mk "f();" (some "f"))).2
      (Source.mk "f();" (some "f"))).1 =
      .err { kind := .runtimeFileLoading (file_already_loaded_msg "f") } := rfl
  exact add_source_failure_advances_counter _ _ _ h

/-! ## Claim C3: list values in check_value -/

/-- C3: for list-against-list value comparison, a rest variable in the
rule-type list is a TypeError; otherwise the parameter matches iff every
element of the rule-type list appears somewhere in the rule list — pure
membership, so the outcome ignores the order of the rule list and the rule
list may be a strict superset. -/
theorem check_value_list_spec (c : Collab) (kb : KnowledgeBase) (index : Nat)
    (rule_list rule_type_list : List Term) :
    (has_rest_var rule_type_list = true →
      check_value_param c kb index (.list rule_list) (.list rule_type_list) =
        .err { kind := .runtimeTypeError "Rule types cannot contain *rest variables." }) ∧
    (has_rest_var rule_type_list = false →
      ((check_value_param c kb index (.list rule_list) (.list rule_type_list) =
          .ok .isTrue) ↔
        ∀ t ∈ rule_type_list, ∃ u ∈ rule_list, termEq u t = true) ∧
      (∀ rule_list', rule_list.Perm rule_list' →
        (check_value_param c kb index (.list rule_list') (.list rule_type_list) =
            .ok .isTrue ↔
          check_value_param c kb index (.list rule_list) (.list rule_type_list) =
            .ok .isTrue)) ∧
      (∀ extra,
        check_value_param c kb index (.list rule_list) (.list rule_type_list) =
          .ok .isTrue →
        check_value_param c kb index (.list (rule_list ++ extra)) (.list rule_type_list) =
          .ok .isTrue)) := by
  refine ⟨fun h => ?_, fun h => ⟨?_, fun rl' hperm => ?_, fun extra hok => ?_⟩⟩
  · simp [check_value_param, h]
  · cases hall : rule_type_list.all (fun t => containsTerm rule_list t) with
    | true =>
      simp only [check_value_param, h, Bool.false_eq_true, if_false, hall, if_true]
      constructor
      · intro _ t ht
        have hct := List.all_eq_true.mp hall t ht
        obtain ⟨u, hu, he⟩ := List.any_eq_true.mp hct
        exact ⟨u, hu, he⟩
      · intro _
        trivial
    | false =>
      simp only [check_value_param, h, Bool.false_eq_true, if_false, hall]
      constructor
      · intro hcontra
        cases hcontra
      · intro hforall
        exfalso
        have : rule_type_list.all (fun t => containsTerm rule_list t) = true := by
          rw [List.all_eq_true]
          intro t ht
          obtain ⟨u, hu, he⟩ := hforall t ht
          exact List.any_eq_true.mpr ⟨u, hu, he⟩
        rw [hall] at this
        cases this
  · have hc : ∀ t, containsTerm rl' t = containsTerm rule_list t := by
      intro t
      refine bool_eq_of_iff ?_
      unfold containsTerm
      simp only [List.any_eq_true]
      exact ⟨fun ⟨x, hx, he⟩ => ⟨x, hperm.mem_iff.mpr hx, he⟩,
        fun ⟨x, hx, he⟩ => ⟨x, hperm.mem_iff.mp hx, he⟩⟩
    have hall : rule_type_list.all (fun t => containsTerm rl' t) =
        rule_type_list.all (fun t => containsTerm rule_list t) :=
      list_all_congr _ _ _ (fun t _ => hc t)
    cases hx : rule_type_list.all (fun t => containsTerm rule_list t) with
    | true => simp [check_value_param, h, hall, hx]
    | false => simp [check_value_param, h, hall, hx]
  · cases hx : rule_type_list.all (fun t => containsTerm rule_list t) with
    | false =>
      simp [check_value_param, h, hx] at hok
    | true =>
      have happ : rule_type_list.all (fun t => containsTerm (rule_list ++ extra) t) = true := by
        rw [List.all_eq_true]
        intro t ht
        have hct := List.all_eq_true.mp hx t ht
        unfold containsTerm at hct ⊢
        rw [List.any_append, hct]
        rfl
      simp [check_value_param, h, happ]

/-- Witness for C3: the rule list (2, 1) matches the rule-type list (1) by
membership, and a rest variable in the rule-type list is rejected with the
TypeError. -/
theorem check_value_list_spec_witness :
    check_value_param trivialCollab KnowledgeBase.new 1
      (.list [Term.mk (.number (.integer 2)) none, Term.mk (.number (.integer 1)) none])
      (.list [Term.mk (.number (.integer 1)) none]) = .ok .isTrue ∧
    check_value_param trivialCollab KnowledgeBase.new 1
      (.list [Term.mk (.number (.integer 1)) none])
      (.list [Term.mk (.restVariable (Symbol.mk "rest")) none]) =
      .err { kind := .runtimeTypeError "Rule types cannot contain *rest variables." } := by
  constructor
  · exact ((check_value_list_spec trivialCollab KnowledgeBase.new 1
      [Term.mk (.number (.integer 2)) none, Term.mk (.number (.integer 1)) none]
      [Term.mk (.number (.integer 1)) none]).2 rfl).1.mpr (by decide)
  · exact (check_value_list_spec trivialCollab KnowledgeBase.new 1
      [Term.mk (.number (.integer 1)) none]
      [Term.mk (.restVariable (Symbol.mk "rest")) none]).1 rfl

/-! ## Claim C2: the MRO subclass check -/

/-- C2 (amended): the subclass test errs with UnregisteredClass when the
rule-type tag is not in the constant table; when it resolves to an
external instance, it errs with InvalidState when the rule tag has no
registered MRO, and otherwise succeeds iff the external instance id is in
the MRO and the rule-type fields all match the rule fields; when the
registered constant is not an external instance it panics (`unreachable!`)
rather than returning an error. -/
theorem subclass_check_spec (c : Collab) (kb : KnowledgeBase)
    (rule_instance rule_type_instance : InstanceLiteral) (index : Nat) :
    (mapGet kb.constants rule_type_instance.tag = none →
      check_rule_instance_is_subclass_of_rule_type_instance c kb rule_instance
          rule_type_instance index =
        .err { kind := .validationUnregisteredClass (Term.mk (.variable rule_type_instance.tag) none) }) ∧
    (∀ (e : ExternalInstance) (sid : Option Nat),
      mapGet kb.constants rule_type_instance.tag =
        some (Term.mk (.externalInstance e) sid) →
      (mapGet kb.mro rule_instance.tag = none →
        check_rule_instance_is_subclass_of_rule_type_instance c kb rule_instance
            rule_type_instance index =
          .err { kind := .operationalInvalidState (mro_missing_msg rule_instance.tag) }) ∧
      (∀ rule_mro, mapGet kb.mro rule_instance.tag = some rule_mro →
        (check_rule_instance_is_subclass_of_rule_type_instance c kb rule_instance
            rule_type_instance index = .ok .isTrue ↔
          (e.instance_id ∈ rule_mro ∧
            param_fields_match rule_type_instance.fields rule_instance.fields = true)))) ∧
    (∀ t : Term, mapGet kb.constants rule_type_instance.tag = some t →
      (∀ e : ExternalInstance, ¬ t.value = .externalInstance e) →
      check_rule_instance_is_subclass_of_rule_type_instance c kb rule_instance
          rule_type_instance index =
        .panicked "Unregistered specializer classes should be caught before this point.") := by
  refine ⟨fun h => ?_, fun e sid he => ⟨fun hm => ?_, fun rule_mro hm => ?_⟩,
    fun t ht hne => ?_⟩
  · simp [check_rule_instance_is_subclass_of_rule_type_instance, get_registered_class,
      Value.as_symbol, Term.value, h]
  · simp [check_rule_instance_is_subclass_of_rule_type_instance, get_registered_class,
      Value.as_symbol, Term.value, he, ExternalInstance.instance_id, hm]
  · obtain ⟨iid, ctor, rep⟩ := e
    by_cases hc : iid ∈ rule_mro <;>
      cases hf : param_fields_match rule_type_instance.fields rule_instance.fields <;>
        simp [check_rule_instance_is_subclass_of_rule_type_instance, get_registered_class,
          Value.as_symbol, Term.value, he, ExternalInstance.instance_id, hm, hc, hf]
  · obtain ⟨v, sid⟩ := t
    cases v <;>
      first
      | exact absurd rfl (hne _)
      | simp [check_rule_instance_is_subclass_of_rule_type_instance, get_registered_class,
          Value.as_symbol, Term.value, ht]

/-- The C2 counterexample KB: the rule-type tag P is registered as a
boolean constant (not an external instance), and the rule tag C has an
MRO. -/
def kbC2 : KnowledgeBase :=
  { KnowledgeBase.new with
    constants := [(Symbol.mk "P", Term.mk (.boolean true) none)]
    mro := [(Symbol.mk "C", [1])] }

/-- Counterexample to C2 as stated: with P registered as a non-external
instance, the subclass check panics (`unreachable!`) instead of returning
an error. -/
theorem subclass_check_nonexternal_panics :
    check_rule_instance_is_subclass_of_rule_type_instance trivialCollab kbC2
        (InstanceLiteral.mk (Symbol.mk "C") []) (InstanceLiteral.mk (Symbol.mk "P") []) 1 =
      .panicked "Unregistered specializer classes should be caught before this point." ∧
    (check_rule_instance_is_subclass_of_rule_type_instance trivialCollab kbC2
        (InstanceLiteral.mk (Symbol.mk "C") []) (InstanceLiteral.mk (Symbol.mk "P") []) 1).isErr
      = false :=
  ⟨rfl, rfl⟩

/-- The C2 witness KB: P registered as external instance 7, C's MRO
contains 7. -/
def kbC2ok : KnowledgeBase :=
  { KnowledgeBase.new with
    constants := [(Symbol.mk "P",
      Term.mk (.externalInstance (ExternalInstance.mk 7 none none)) none)]
    mro := [(Symbol.mk "C", [3, 7])] }

/-- Witness for C2 (amended): with P external instance 7 and C's MRO
containing 7, the subclass check succeeds. -/
theorem subclass_check_spec_witness :
    check_rule_instance_is_subclass_of_rule_type_instance trivialCollab kbC2ok
        (InstanceLiteral.mk (Symbol.mk "C") []) (InstanceLiteral.mk (Symbol.mk "P") []) 1 =
      .ok .isTrue := by
  exact (((subclass_check_spec trivialCollab kbC2ok (InstanceLiteral.mk (Symbol.mk "C") [])
    (InstanceLiteral.mk (Symbol.mk "P") []) 1).2.1 (ExternalInstance.mk 7 none none) none
      rfl).2 [3, 7] rfl).mpr (by decide)

/-! ## Claim C1: how many errors validate_rules reports -/

/-- Claim-side (C1): a diagnostic that is an InvalidRule error. -/
def isInvalidRuleDiag : Diagnostic → Bool
  | .error e =>
    match e.kind with
    | .validationInvalidRule _ _ => true
    | _ => false
  | .warning _ => false

/-- Claim-side (C1): a diagnostic that is an InvalidRule or
MissingRequiredRule error. -/
def isRuleTypeErrorDiag : Diagnostic → Bool
  | .error e =>
    match e.kind with
    | .validationInvalidRule _ _ => true
    | .validationMissingRequiredRule _ => true
    | _ => false
  | .warning _ => false

/-- Claim-side (C1): the number of InvalidRule errors in a diagnostics
list. -/
def countInvalidRuleErrors (ds : List Diagnostic) : Nat :=
  (ds.filter isInvalidRuleDiag).length

/-- Claim-side (C1): the number of InvalidRule or MissingRequiredRule
errors in a diagnostics list. -/
def countRuleTypeErrors (ds : List Diagnostic) : Nat :=
  (ds.filter isRuleTypeErrorDiag).length

/-- Claim-side (C1): a parameter check that came back as a plain
non-match. -/
def isMatchFailure : PRes RuleParamMatch → Bool
  | .ok (.isFalse _) => true
  | _ => false

/-- The C1 counterexample rules: f(x: n) with an integer value
specializer. -/
def ruleF (n : Int) : Rule :=
  { name := Symbol.mk "f"
    params := [{ parameter := Term.mk (.variable (Symbol.mk "x")) none
                 specializer := some (Term.mk (.number (.integer n)) none) }]
    body := Term.mk (.expression .and []) none }

/-- The C1 counterexample KB: one shape f(x: 1) and two rules f(x: 2),
f(x: 3), each failing the only shape declared for their name. -/
def kbC1 : KnowledgeBase :=
  { KnowledgeBase.new with
    rules := [(Symbol.mk "f", { name := Symbol.mk "f", rules := [ruleF 2, ruleF 3] })]
    rule_types := [(Symbol.mk "f", [ruleF 1])] }

/-- Claim-side (C1): the diagnostics validate_rules returns on the
counterexample KB. -/
def dsC1 : List Diagnostic :=
  match validate_rules trivialCollab kbC1 with
  | .ok ds => ds
  | _ => []

/-- Counterexample to C1 as stated: both rules of the counterexample KB
fail the single shape declared for their name, yet validate_rules returns
exactly one InvalidRule error, not one per failing rule. -/
theorem validate_rules_not_one_error_per_rule :
    isMatchFailure (rule_params_match trivialCollab kbC1 (ruleF 2) (ruleF 1)) = true ∧
    isMatchFailure (rule_params_match trivialCollab kbC1 (ruleF 3) (ruleF 1)) = true ∧
    validate_rules trivialCollab kbC1 = .ok dsC1 ∧
    countInvalidRuleErrors dsC1 = 1 ∧
    ¬ countInvalidRuleErrors dsC1 = 2 :=
  ⟨rfl, rfl, rfl, rfl, by decide⟩

/-- C1 (amended): validate_rules reports at most one InvalidRule or
MissingRequiredRule error in total — the one produced for the first
failure the rule-type phase encounters — provided the rule-call checker
contributes no such diagnostics (it emits undefined-rule-call errors
only); and when the rule-type phase succeeds it reports none. -/
theorem validate_rules_at_most_one_type_error (c : Collab) (kb : KnowledgeBase)
    (hcalls : ∀ d ∈ c.checkUndefinedRuleCalls kb, isRuleTypeErrorDiag d = false) :
    (∀ ds, validate_rules c kb = .ok ds → countRuleTypeErrors ds ≤ 1) ∧
    (validate_rule_types c kb = .ok () → ∀ ds, validate_rules c kb = .ok ds →
      countRuleTypeErrors ds = 0) := by
  have hnil : (c.checkUndefinedRuleCalls kb).filter isRuleTypeErrorDiag = [] := by
    rw [List.filter_eq_nil_iff]
    intro d hd
    simp [hcalls d hd]
  constructor
  · intro ds hds
    unfold validate_rules at hds
    rcases ht : validate_rule_types c kb with u | e | m <;> rw [ht] at hds
    · cases hds
      simp [countRuleTypeErrors, hnil]
    · cases hds
      unfold countRuleTypeErrors
      rw [List.filter_cons]
      cases hb : isRuleTypeErrorDiag (Diagnostic.error e) <;> simp [hnil]
    · cases hds
  · intro hok ds hds
    unfold validate_rules at hds
    rw [hok] at hds
    cases hds
    simp [countRuleTypeErrors, hnil]

/-- Witness for C1 (amended) at the counterexample KB: the diagnostics
hold at most one rule-type error. -/
theorem validate_rules_at_most_one_type_error_witness :
    countRuleTypeErrors dsC1 ≤ 1 := by
  have h : validate_rules trivialCollab kbC1 = .ok dsC1 := rfl
  exact (validate_rules_at_most_one_type_error trivialCollab kbC1
    (by simp [trivialCollab])).1 dsC1 h

/-! ## Claim C5: the multiple-load guard -/

/-- The fresh Polar state used as C5's concrete starting point (the lint
toggle is on so the no-allow warning is suppressed, as with
POLAR_IGNORE_NO_ALLOW_WARNING set). -/
def pEmpty : Polar := Polar.mkNew true

/-- Counterexample to C5 as stated: a load of the empty source list
returns Ok and leaves the KB without rules, so a second load also returns
Ok rather than the FileLoading multiple-load error. -/
theorem load_after_ok_not_always_guarded :
    (load trivialCollab [] pEmpty).1 = .ok () ∧
    (load trivialCollab [] (load trivialCollab [] pEmpty).2).1 = .ok () :=
  ⟨rfl, rfl⟩

/-- C5 (amended): the multiple-load guard fires exactly on the rule
store — whenever the KB already holds at least one rule, any further load
returns the FileLoading multiple-load error and leaves the entire Polar
state untouched.  A load that returned Ok leaves rules in the KB whenever
its sources defined any, so subsequent loads then fail this way; a
successful load that produced no rules (such as of the empty source list)
does not arm the guard. -/
theorem load_guard_spec (c : Collab) (srcs : List Source) (p : Polar)
    (h : has_rules p.kb = true) :
    load c srcs p = (.err { kind := .runtimeFileLoading MULTIPLE_LOAD_ERROR_MSG }, p) := by
  unfold load
  simp [h]

/-- A Polar state holding one rule, for the C5 witness. -/
def pWithRule : Polar := { Polar.mkNew true with kb := add_rule KnowledgeBase.new (ruleF 1) }

/-- Witness for C5 (amended): on a KB with one rule, load fails with the
multiple-load message and changes nothing. -/
theorem load_guard_spec_witness :
    load trivialCollab [] pWithRule =
      (.err { kind := .runtimeFileLoading MULTIPLE_LOAD_ERROR_MSG }, pWithRule) :=
  load_guard_spec trivialCollab [] pWithRule rfl

/-! ## Claim C6: diagnostic_load clears the rule state on error -/

/-- C6: when diagnostic_load returns a diagnostics list containing an
error, the returned KB has been cleared — no rules, rule types, sources,
inline queries, loaded-file maps or resource blocks remain; when the list
holds only warnings, the rules are exactly those the load phase
produced. -/
theorem diagnostic_load_clears_on_error (c : Collab) (ig : Bool) (srcs : List Source)
    (kb : KnowledgeBase) (ds : List Diagnostic) (kb' : KnowledgeBase)
    (h : diagnostic_load c ig srcs kb = .ok (ds, kb')) :
    (ds.any Diagnostic.isError = true →
      has_rules kb' = false ∧ kb'.rules = [] ∧ kb'.rule_types = [] ∧
      kb'.sources = [] ∧ kb'.inline_queries = [] ∧ kb'.loaded_files = [] ∧
      kb'.loaded_content = [] ∧ kb'.resource_blocks = ResourceBlocks.empty) ∧
    (ds.any Diagnostic.isError = false →
      kb'.rules = (load_phase c srcs kb).2.rules) := by
  unfold diagnostic_load at h
  dsimp only at h
  split at h
  · rw [PRes.ok.injEq, Prod.mk.injEq] at h
    obtain ⟨hds, hkb⟩ := h
    subst hds
    subst hkb
    rename_i hcond
    constructor
    · intro _
      exact ⟨rfl, rfl, rfl, rfl, rfl, rfl, rfl, rfl⟩
    · intro hfalse
      rw [hcond] at hfalse
      cases hfalse
  · split at h
    · cases h
    · cases h
    · split at h
      · split at h
        · rw [PRes.ok.injEq, Prod.mk.injEq] at h
          obtain ⟨hds, hkb⟩ := h
          subst hds
          subst hkb
          rename_i hcond
          constructor
          · intro _
            exact ⟨rfl, rfl, rfl, rfl, rfl, rfl, rfl, rfl⟩
          · intro hfalse
            rw [hcond] at hfalse
            cases hfalse
        · rw [PRes.ok.injEq, Prod.mk.injEq] at h
          obtain ⟨hds, hkb⟩ := h
          subst hds
          subst hkb
          rename_i hcond
          constructor
          · intro htrue
            exact absurd htrue hcond
          · intro _
            rfl
      · split at h
        · rw [PRes.ok.injEq, Prod.mk.injEq] at h
          obtain ⟨hds, hkb⟩ := h
          subst hds
          subst hkb
          rename_i hcond
          constructor
          · intro _
            exact ⟨rfl, rfl, rfl, rfl, rfl, rfl, rfl, rfl⟩
          · intro hfalse
            rw [hcond] at hfalse
            cases hfalse
        · rw [PRes.ok.injEq, Prod.mk.injEq] at h
          obtain ⟨hds, hkb⟩ := h
          subst hds
          subst hkb
          rename_i hcond
          constructor
          · intro htrue
            exact absurd htrue hcond
          · intro _
            rfl

/-- The C6 witness sources: the same file twice, so the second add_source
yields a FileLoading error diagnostic. -/
def srcsC6 : List Source :=
  [Source.mk "f();" (some "file"), Source.mk "f();" (some "file")]

/-- Claim-side (C6): the diagnostics of the witness run. -/
def dsC6 : List Diagnostic :=
  match diagnostic_load trivialCollab true srcsC6 KnowledgeBase.new with
  | .ok (ds, _) => ds
  | _ => []

/-- Claim-side (C6): the KB of the witness run. -/
def kbC6 : KnowledgeBase :=
  match diagnostic_load trivialCollab true srcsC6 KnowledgeBase.new with
  | .ok (_, kb) => kb
  | _ => KnowledgeBase.new

/-- Witness for C6: the duplicate-file run produces an error diagnostic
and the returned KB is cleared. -/
theorem diagnostic_load_clears_on_error_witness :
    dsC6.any Diagnostic.isError = true ∧ has_rules kbC6 = false ∧ kbC6.rules = [] ∧
    kbC6.sources = [] ∧ kbC6.inline_queries = [] := by
  have h : diagnostic_load trivialCollab true srcsC6 KnowledgeBase.new = .ok (dsC6, kbC6) := rfl
  have hany : dsC6.any Diagnostic.isError = true := rfl
  have hc := (diagnostic_load_clears_on_error trivialCollab true srcsC6
    KnowledgeBase.new dsC6 kbC6 h).1 hany
  exact ⟨hany, hc.1, hc.2.1, hc.2.2.2.1, hc.2.2.2.2.1⟩

end Oso
